import Mathlib

/-!
# OAuth test console and consent page (web/src)

A shallow embedding of

* `web/src/components/oauth-test/OAuthProviderTest.jsx` and
  `web/src/components/oauth-test/OAuthAPITest.jsx`: the keyed call tracker
  (`makeRequest`, `clearResult`) over the `results` and `loading` maps;
* `web/src/pages/OAuth/OAuthConsent.jsx`: the consent page (mount effect,
  `fetchConsentInfo`, render branches).

Conventions of the embedding.

* A React state variable is a field of a record; `setX(prev => f prev)` applies `f`
  to the field. Functional updaters are applied by React in the order they are
  issued, so applying them on the spot yields the same sequence of states.
* An `async` function is cut at its `await`: the part before it and the part after
  it (the continuation, which receives how the promise settled) are two functions.
* Every effect that leaves the component (a state update, a transport call, a
  navigation) is appended to a log, so that order and absence of effects can be
  stated.
* `Date.now()` readings are arguments.
-/

namespace OAuthTest

/-! ## JavaScript values -/

/-- JavaScript values as far as the components inspect them. Numbers are integers
(statuses, millisecond readings); `NaN` and fractions are outside the embedding. -/
inductive JSValue where
  | undefined : JSValue
  | null : JSValue
  | bool (b : Bool) : JSValue
  | num (n : Int) : JSValue
  | str (s : String) : JSValue
  | arr (items : List JSValue) : JSValue
  | obj (fields : List (String × JSValue)) : JSValue

namespace JSValue

/-- Truthiness (`ToBoolean`): `undefined`, `null`, `false`, `0` and `''` are falsy,
everything else, every array and object included, is truthy. -/
def truthy : JSValue → Bool
  | undefined => false
  | null => false
  | bool b => b
  | num n => n != 0
  | str s => s != ""
  | arr _ => true
  | obj _ => true

/-- The operator `a || b`: `a` when it is truthy, else `b`. -/
def or (a b : JSValue) : JSValue :=
  if a.truthy then a else b

/-- Own field `name` of a list of fields, `undefined` when there is none. -/
def field (fields : List (String × JSValue)) (name : String) : JSValue :=
  match fields with
  | [] => undefined
  | (k, v) :: rest => if k = name then v else field rest name

/-- Property read `v.name` for the property names the page reads (`success`,
`message`, `data`, `redirect_to`, `requested_scope`, `client_name`): `none` stands
for the `TypeError` thrown on `undefined` and `null`; an object yields its field or
`undefined`; any other value has no such property and yields `undefined`. -/
def prop (v : JSValue) (name : String) : Option JSValue :=
  match v with
  | undefined => none
  | null => none
  | obj fields => some (field fields name)
  | _ => some undefined

/-- Optional chaining `v?.name`: `undefined` on `undefined` and `null`. -/
def optProp (v : JSValue) (name : String) : JSValue :=
  match v.prop name with
  | none => undefined
  | some x => x

mutual
/-- The string an array element contributes to `Array.prototype.join`: the empty
string for `undefined` and `null`, else the element converted to a string; `none`
stands for the `TypeError` of a conversion that fails. -/
def elementKey : JSValue → Option String
  | undefined => some ""
  | null => some ""
  | bool b => some (if b then "true" else "false")
  | num n => some (toString n)
  | str s => some s
  | arr inner => joinKeys inner
  | obj fields =>
      if fields.any (fun p => p.1 == "toString") then none else some "[object Object]"
/-- The string `items.join(',')`, which is how an array converts to a string. -/
def joinKeys : List JSValue → Option String
  | [] => some ""
  | [x] => elementKey x
  | x :: y :: rest =>
      match elementKey x, joinKeys (y :: rest) with
      | some a, some b => some (a ++ "," ++ b)
      | _, _ => none
end

/-- The property key a value is converted to in `o[v]` (`ToPropertyKey`): a string
is its own key, a number is printed in decimal, an array is joined with commas, a
plain object is `[object Object]`. An object with an own `toString` property, which
in parsed JSON is never a function, cannot be converted: `none` stands for the
`TypeError`. -/
def toPropertyKey : JSValue → Option String
  | undefined => some "undefined"
  | null => some "null"
  | bool b => some (if b then "true" else "false")
  | num n => some (toString n)
  | str s => some s
  | arr items => joinKeys items
  | obj fields =>
      if fields.any (fun p => p.1 == "toString") then none else some "[object Object]"

mutual
/-- Whether React accepts the value as a child: strings and numbers are shown,
`undefined`, `null` and booleans show nothing, an array is accepted when all its
elements are, and a plain object makes the render throw. -/
def renderable : JSValue → Bool
  | obj _ => false
  | arr items => allRenderable items
  | _ => true
/-- Whether every element of an array child is accepted by React. -/
def allRenderable : List JSValue → Bool
  | [] => true
  | x :: rest => renderable x && allRenderable rest
end

end JSValue

/-! ## Plain objects used as maps -/

/-- The own string-keyed properties of a plain object, listed in the order they were
added; the components only read single keys, so the order plays no part. -/
abbrev JSObj (α : Type) := List (String × α)

namespace JSObj

variable {α : Type}

/-- Property read `o[k]` among the own properties: `none` stands for `undefined`.
Properties inherited from `Object.prototype` are not part of this read; the lookup
that can receive such a name from outside, the one in `getScopeInfo`, consults them
separately. -/
def read (o : JSObj α) (k : String) : Option α :=
  match o with
  | [] => none
  | (k', v) :: rest => if k' = k then some v else read rest k

/-- Whether `k` is an own property of `o`. -/
def has (o : JSObj α) (k : String) : Bool :=
  o.any (fun p => p.1 == k)

/-- The object `{ ...o, [k]: v }`: the properties of `o` are copied in order; an
existing `k` keeps its place and takes the value `v`, a new `k` is added last. -/
def assign (o : JSObj α) (k : String) (v : α) : JSObj α :=
  if has o k then o.map (fun p => if p.1 = k then (k, v) else p) else o ++ [(k, v)]

/-- The statement `delete o[k]` on a copy of `o`. -/
def remove (o : JSObj α) (k : String) : JSObj α :=
  o.filter (fun p => p.1 != k)

end JSObj

/-! ## The call tracker shared by the two test panels -/

/-- The `config` argument of `makeRequest`, an axios request description. -/
structure RequestConfig where
  method : String
  url : String
  data : JSValue := JSValue.undefined

/-- What the transport resolves with: `response.status` and `response.data`. -/
structure Response where
  status : Int
  data : JSValue

/-- What the transport rejects with: `error.response` (absent when no HTTP response
was obtained) and `error.message`. -/
structure TransportError where
  response : Option Response
  message : String

/-- How the awaited transport promise settles. -/
inductive Outcome where
  | resolved (response : Response) : Outcome
  | rejected (error : TransportError) : Outcome

/-- The value stored under a key of `results`. -/
structure CallResult where
  status : Int
  data : JSValue
  responseTime : Int

/-- A request as handed to the transport: the caller's config and the
`Authorization` header of the axios instance, if the instance sets one. Both panels
also pass `validateStatus`, see `validateStatus` below. -/
structure SentRequest where
  config : RequestConfig
  authorization : Option String

/-- The option `validateStatus: () => true` both panels give the transport: every
status counts as a fulfilled response. -/
def validateStatus (_status : Int) : Bool := true

/-- The effects of the tracker, in the order they are issued. -/
inductive Effect where
  | setResults (key : String) (result : CallResult) : Effect
  | deleteResults (key : String) : Effect
  | setLoading (key : String) (flag : Bool) : Effect
  | transport (request : SentRequest) : Effect

/-- Whether an effect is a call of the transport. -/
def Effect.isTransport : Effect → Bool
  | Effect.transport _ => true
  | _ => false

/-- The state of a panel: `const [results, setResults] = useState({})`,
`const [loading, setLoading] = useState({})`, and the log of effects. -/
structure Store where
  results : JSObj CallResult
  loading : JSObj Bool
  log : List Effect

/-- The state of a freshly mounted panel. -/
def Store.initial : Store :=
  { results := [], loading := [], log := [] }

/-- Number of transport calls made so far. -/
def Store.transportCalls (st : Store) : Nat :=
  st.log.countP Effect.isTransport

/-- The update `setResults((prev) => ({ ...prev, [key]: result }))`. -/
def storeResult (key : String) (result : CallResult) (st : Store) : Store :=
  { st with results := st.results.assign key result,
            log := st.log ++ [Effect.setResults key result] }

/-- The update `setLoading((prev) => ({ ...prev, [key]: flag }))`. -/
def storeLoading (key : String) (flag : Bool) (st : Store) : Store :=
  { st with loading := st.loading.assign key flag,
            log := st.log ++ [Effect.setLoading key flag] }

/-- A call of the transport (`API(...)` or the axios instance). -/
def callTransport (request : SentRequest) (st : Store) : Store :=
  { st with log := st.log ++ [Effect.transport request] }

/-- The locals a suspended `makeRequest` holds across its `await`. -/
structure Pending where
  key : String
  startTime : Int
  deriving DecidableEq

/-- The expression `error.response?.status || 0`. -/
def errorStatus (error : TransportError) : Int :=
  match error.response with
  | none => 0
  | some response => if response.status ≠ 0 then response.status else 0

/-- The expression `error.response?.data || { error: error.message }`. -/
def errorData (error : TransportError) : JSValue :=
  match error.response with
  | none => JSValue.obj [("error", JSValue.str error.message)]
  | some response => response.data.or (JSValue.obj [("error", JSValue.str error.message)])

/-- The part of `makeRequest` after the `await`, the same text in both panels: the
rest of the `try` block when the transport resolved, the `catch` block when it
rejected, then the `finally` block. `now` is the reading of `Date.now()` there. -/
def makeRequestResume (p : Pending) (outcome : Outcome) (now : Int) (st : Store) : Store :=
  let st :=
    match outcome with
    | Outcome.resolved response =>
        storeResult p.key
          { status := response.status, data := response.data,
            responseTime := now - p.startTime } st
    | Outcome.rejected error =>
        storeResult p.key
          { status := errorStatus error, data := errorData error,
            responseTime := now - p.startTime } st
  storeLoading p.key false st

/-- The function `clearResult`, the same text in both panels:
`setResults((prev) => { const newResults = { ...prev }; delete newResults[key]; return newResults; })`. -/
def clearResult (key : String) (st : Store) : Store :=
  { st with results := st.results.remove key,
            log := st.log ++ [Effect.deleteResults key] }

/-- Two stores hold the same result and the same loading flag under `k`. -/
def Store.sameAt (k : String) (st st' : Store) : Prop :=
  st'.results.read k = st.results.read k ∧ st'.loading.read k = st.loading.read k

/-- A store in which `getBalance` holds a result and is marked as loading. -/
def sampleStore : Store :=
  { results := [("getBalance", { status := 200, data := JSValue.num 7, responseTime := 12 })],
    loading := [("getBalance", true)],
    log := [] }

/-- The synthetic result stored when the bearer token is missing. -/
def guardResult : CallResult :=
  { status := 0,
    data := JSValue.obj [("error", JSValue.str "Bearer token is required")],
    responseTime := 0 }

namespace OAuthProviderTest

/-- The function `makeRequest` of `OAuthProviderTest.jsx` up to its `await`: mark the
key as loading, read the clock, call `API({ ...config, validateStatus })`. -/
def makeRequestBegin (key : String) (config : RequestConfig) (now : Int) (st : Store) :
    Store × Pending :=
  let st := storeLoading key true st
  let startTime := now
  let st := callTransport { config := config, authorization := none } st
  (st, { key := key, startTime := startTime })

/-- A whole run of `makeRequest` with nothing interleaved: `start` and `finish` are
the two clock readings, `outcome` is how the transport settles. -/
def makeRequest (key : String) (config : RequestConfig) (start finish : Int)
    (outcome : Outcome) (st : Store) : Store :=
  let (st, p) := makeRequestBegin key config start st
  makeRequestResume p outcome finish st

/-- The config the card `POST /oauth/consent/reject` of the provider panel builds in
its `onTest`: the challenge goes into the query string, the reason into the body.
`consentChallenge` and `rejectReason` are the values of the two inputs. -/
def postConsentRejectConfig (consentChallenge rejectReason : String) : RequestConfig :=
  { method := "POST",
    url := "/oauth/consent/reject?consent_challenge=" ++ consentChallenge,
    data := JSValue.obj [("reason", JSValue.str rejectReason)] }

end OAuthProviderTest

namespace OAuthAPITest

/-- The function `makeRequest` of `OAuthAPITest.jsx` up to its `await`, or up to its
early `return`. With a falsy `bearerToken` the synthetic result is stored and
nothing is left pending (`none`); otherwise the key is marked as loading, the clock
is read and the axios instance made by `createAxiosInstance` is called. -/
def makeRequestBegin (bearerToken : String) (key : String) (config : RequestConfig)
    (now : Int) (st : Store) : Store × Option Pending :=
  if bearerToken = "" then
    (storeResult key
      { status := 0,
        data := JSValue.obj [("error", JSValue.str "Bearer token is required")],
        responseTime := 0 } st, none)
  else
    let st := storeLoading key true st
    let startTime := now
    let st := callTransport
      { config := config, authorization := some ("Bearer " ++ bearerToken) } st
    (st, some { key := key, startTime := startTime })

/-- A whole run of `makeRequest` with nothing interleaved. The transport's outcome
is consulted only when the request was dispatched. -/
def makeRequest (bearerToken : String) (key : String) (config : RequestConfig)
    (start finish : Int) (outcome : Outcome) (st : Store) : Store :=
  match makeRequestBegin bearerToken key config start st with
  | (st, none) => st
  | (st, some p) => makeRequestResume p outcome finish st

end OAuthAPITest

/-! ### Interleaved calls on one panel -/

/-- The result a call stores when its transport promise settles: the object literal
of the `try` block or of the `catch` block of `makeRequest`. -/
def settledResult (p : Pending) (outcome : Outcome) (now : Int) : CallResult :=
  match outcome with
  | Outcome.resolved response =>
      { status := response.status, data := response.data,
        responseTime := now - p.startTime }
  | Outcome.rejected error =>
      { status := errorStatus error, data := errorData error,
        responseTime := now - p.startTime }

/-- The two test panels. -/
inductive Panel where
  | provider : Panel
  | api : Panel
  deriving DecidableEq

/-- The part of the panel's `makeRequest` before its `await`, with the continuation it
leaves pending, if any. The provider panel has no bearer token and ignores the
argument. -/
def Panel.makeRequestBegin (panel : Panel) (bearerToken key : String)
    (config : RequestConfig) (now : Int) (st : Store) : Store × Option Pending :=
  match panel with
  | Panel.provider =>
      ((OAuthProviderTest.makeRequestBegin key config now st).1,
        some (OAuthProviderTest.makeRequestBegin key config now st).2)
  | Panel.api => OAuthAPITest.makeRequestBegin bearerToken key config now st

/-- What can happen on a panel: a `makeRequest(key, config)` is started (with the
bearer token and the clock reading of that moment), the transport promise of a
suspended call settles (the call is named by the locals it holds), or
`clearResult(key)` is called. -/
inductive Event where
  | start (bearerToken key : String) (config : RequestConfig) (now : Int) : Event
  | settle (p : Pending) (outcome : Outcome) (now : Int) : Event
  | clear (key : String) : Event

/-- A panel over time: its store and the calls suspended at their `await`. -/
structure Session where
  store : Store
  pending : List Pending

/-- A freshly mounted panel with no call in flight. -/
def Session.initial : Session :=
  { store := Store.initial, pending := [] }

/-- One event. A `settle` for a call that is not suspended is not a possible event and
changes nothing. -/
def step (panel : Panel) (s : Session) : Event → Session
  | Event.start bearerToken key config now =>
      { store := (panel.makeRequestBegin bearerToken key config now s.store).1,
        pending := s.pending
          ++ (panel.makeRequestBegin bearerToken key config now s.store).2.toList }
  | Event.settle p outcome now =>
      if p ∈ s.pending then
        { store := makeRequestResume p outcome now s.store,
          pending := s.pending.erase p }
      else s
  | Event.clear key =>
      { store := clearResult key s.store, pending := s.pending }

/-- A sequence of events, in any interleaving. -/
def run (panel : Panel) (events : List Event) (s : Session) : Session :=
  events.foldl (step panel) s

/-- Whether the event can store or remove the result under `k`: a call for `k` that
ends at the guard of the API panel, a call for `k` that settles, or a clear of `k`. -/
def Event.writesResult (panel : Panel) (k : String) : Event → Bool
  | Event.start bearerToken key _ _ =>
      decide (panel = Panel.api) && decide (bearerToken = "") && decide (key = k)
  | Event.settle p _ _ => decide (p.key = k)
  | Event.clear key => decide (key = k)

/-- Two calls under `getLogout` on the provider panel, started at clock readings 0
and 1; the one started second has settled with status 200, the first is still
suspended. -/
def twoCalls : List Event :=
  [Event.start "" "getLogout" { method := "GET", url := "/oauth/logout" } 0,
   Event.start "" "getLogout" { method := "GET", url := "/oauth/logout" } 1,
   Event.settle { key := "getLogout", startTime := 1 }
     (Outcome.resolved { status := 200, data := JSValue.num 2 }) 5]

/-- One call under `getLogout` on the provider panel, started at clock reading 0 and
still suspended. -/
def oneCall : Session :=
  run Panel.provider
    [Event.start "" "getLogout" { method := "GET", url := "/oauth/logout" } 0]
    Session.initial

/-- Two calls of `makeRequest` on the same key `k`, started at the clock readings `t1`
and `t2`, the second before the first completes; then the first one settles. -/
def overlapped (bearerToken k : String) (config : RequestConfig) (t1 t2 : Int)
    (outcome : Outcome) (now : Int) : List Event :=
  [Event.start bearerToken k config t1,
   Event.start bearerToken k config t2,
   Event.settle { key := k, startTime := t1 } outcome now]

/-- The `Authorization` header of the panel's transport: none on the provider panel,
the bearer token on the API panel. -/
def Panel.authorization (panel : Panel) (bearerToken : String) : Option String :=
  match panel with
  | Panel.provider => none
  | Panel.api => some ("Bearer " ++ bearerToken)

end OAuthTest

/-! ## The consent page -/

namespace OAuthConsent

open OAuthTest

/-- An entry of `SCOPE_DESCRIPTIONS`; `icon` is the name of the icon component. -/
structure ScopeDescription where
  name : String
  desc : String
  nameEn : String
  descEn : String
  icon : String
  color : String

/-- The constant table `SCOPE_DESCRIPTIONS`. -/
def SCOPE_DESCRIPTIONS : List (String × ScopeDescription) :=
  [ ("openid",
      { name := "身份验证", desc := "验证您的身份", nameEn := "Identity",
        descEn := "Verify your identity", icon := "IconTickCircle",
        color := "text-green-500" }),
    ("profile",
      { name := "基本信息", desc := "访问您的用户名和头像", nameEn := "Profile",
        descEn := "Access your username and avatar", icon := "IconUser",
        color := "text-blue-500" }),
    ("email",
      { name := "邮箱地址", desc := "访问您的邮箱地址", nameEn := "Email",
        descEn := "Access your email address", icon := "IconMail",
        color := "text-purple-500" }),
    ("balance:read",
      { name := "余额查看", desc := "查看您的账户余额", nameEn := "Balance",
        descEn := "View your account balance", icon := "IconCoinMoneyStroked",
        color := "text-yellow-500" }),
    ("usage:read",
      { name := "使用记录", desc := "查看您的 API 使用记录", nameEn := "Usage",
        descEn := "View your API usage records", icon := "IconHistogram",
        color := "text-cyan-500" }),
    ("tokens:read",
      { name := "令牌查看", desc := "查看您的 API 令牌列表", nameEn := "Tokens (Read)",
        descEn := "View your API token list", icon := "IconKey",
        color := "text-orange-500" }),
    ("tokens:write",
      { name := "令牌管理", desc := "创建和删除 API 令牌", nameEn := "Tokens (Write)",
        descEn := "Create and delete API tokens", icon := "IconKey",
        color := "text-red-500" }) ]

/-- The properties every plain object inherits from `Object.prototype`, which a
lookup `SCOPE_DESCRIPTIONS[key]` finds when `key` is not one of the seven own keys.
Each holds a function, listed here by its `name` property (`constructor` is `Object`),
except `__proto__`, which yields `Object.prototype` itself, an object without a
`name` (`none`). All of these values are truthy and none has a property `nameEn`,
`desc`, `descEn`, `icon` or `color`. -/
def objectPrototype : List (String × Option String) :=
  [ ("constructor", some "Object"),
    ("__defineGetter__", some "__defineGetter__"),
    ("__defineSetter__", some "__defineSetter__"),
    ("hasOwnProperty", some "hasOwnProperty"),
    ("__lookupGetter__", some "__lookupGetter__"),
    ("__lookupSetter__", some "__lookupSetter__"),
    ("isPrototypeOf", some "isPrototypeOf"),
    ("propertyIsEnumerable", some "propertyIsEnumerable"),
    ("toString", some "toString"),
    ("valueOf", some "valueOf"),
    ("__proto__", none),
    ("toLocaleString", some "toLocaleString") ]

/-- What `getScopeInfo` returns; `Icon` and `color` are `none` when they are
`undefined`. -/
structure ScopeInfo where
  name : JSValue
  desc : JSValue
  Icon : Option String
  color : Option String

/-- The function `getScopeInfo`. The lookup `SCOPE_DESCRIPTIONS[scope]` converts
`scope` to a property key (`none` when that throws) and finds an own entry of the
table, or else a property inherited from `Object.prototype`. Either is truthy and
takes the `if (info)` branch: an own entry yields its texts, icon and colour; an
inherited value yields `info.name` (the function name) in the Chinese locale,
`info.nameEn` (`undefined`) in the English one, and `undefined` for `desc`, `Icon`
and `color`. Only when both lookups miss is the fallback with the raw `scope`
returned. -/
def getScopeInfo (isEnglish : Bool) (scope : JSValue) : Option ScopeInfo :=
  match scope.toPropertyKey with
  | none => none
  | some key =>
      match JSObj.read SCOPE_DESCRIPTIONS key with
      | some info =>
          some
            { name := JSValue.str (if isEnglish then info.nameEn else info.name),
              desc := JSValue.str (if isEnglish then info.descEn else info.desc),
              Icon := some info.icon,
              color := some info.color }
      | none =>
          match JSObj.read objectPrototype key with
          | some functionName =>
              some
                { name :=
                    if isEnglish then JSValue.undefined
                    else
                      match functionName with
                      | some n => JSValue.str n
                      | none => JSValue.undefined,
                  desc := JSValue.undefined,
                  Icon := none,
                  color := none }
          | none =>
              some
                { name := scope, desc := scope, Icon := some "IconTickCircle",
                  color := some "text-gray-500" }

/-- The rows `requested_scope.map((scope, index) => ...)` computes, one
`getScopeInfo(scope)` per element in order; `none` when one of the calls throws. -/
def scopeRows (isEnglish : Bool) : List JSValue → Option (List ScopeInfo)
  | [] => some []
  | scope :: rest =>
      match getScopeInfo isEnglish scope, scopeRows isEnglish rest with
      | some row, some rows => some (row :: rows)
      | _, _ => none

/-- Whether React can render the row: `<Icon ... />` needs a component, so an
`undefined` `Icon` makes the render throw, and `name` and `desc` are children of
`<Text>`. -/
def rowRenders (row : ScopeInfo) : Bool :=
  row.Icon.isSome && row.name.renderable && row.desc.renderable

/-- The effects of the page, in the order they are issued. -/
inductive Effect where
  | setLoading (flag : Bool) : Effect
  | setSubmitting (flag : Bool) : Effect
  | setError (error : JSValue) : Effect
  | setConsentInfo (data : JSValue) : Effect
  | get (url : String) : Effect
  | post (url : String) (body : JSValue) : Effect
  | navigate (href : JSValue) : Effect
  | showError (message : JSValue) : Effect
  | consoleError (label : String) : Effect

/-- Whether an effect is a network call. -/
def Effect.isNetwork : Effect → Bool
  | Effect.get _ => true
  | Effect.post _ _ => true
  | _ => false

/-- The state of the page: the four `useState` variables, the last value assigned to
`window.location.href` (`none` while nothing was assigned), and the log. -/
structure State where
  loading : Bool
  submitting : Bool
  error : JSValue
  consentInfo : JSValue
  href : Option JSValue
  log : List Effect

/-- The state at mount: `useState(true)`, `useState(false)`, `useState('')`,
`useState(null)`. -/
def State.initial : State :=
  { loading := true, submitting := false, error := JSValue.str "",
    consentInfo := JSValue.null, href := none, log := [] }

/-- Number of network calls made so far. -/
def State.networkCalls (st : State) : Nat :=
  st.log.countP Effect.isNetwork

/-- The call `setLoading(flag)`. -/
def setLoading (flag : Bool) (st : State) : State :=
  { st with loading := flag, log := st.log ++ [Effect.setLoading flag] }

/-- The call `setSubmitting(flag)`. -/
def setSubmitting (flag : Bool) (st : State) : State :=
  { st with submitting := flag, log := st.log ++ [Effect.setSubmitting flag] }

/-- The call `setError(error)`. -/
def setError (error : JSValue) (st : State) : State :=
  { st with error := error, log := st.log ++ [Effect.setError error] }

/-- The call `setConsentInfo(data)`. -/
def setConsentInfo (data : JSValue) (st : State) : State :=
  { st with consentInfo := data, log := st.log ++ [Effect.setConsentInfo data] }

/-- The assignment `window.location.href = href`. -/
def navigate (href : JSValue) (st : State) : State :=
  { st with href := some href, log := st.log ++ [Effect.navigate href] }

/-- The call `showError(message)`. -/
def showError (message : JSValue) (st : State) : State :=
  { st with log := st.log ++ [Effect.showError message] }

/-- The call `console.error(label, err)`. -/
def consoleError (label : String) (st : State) : State :=
  { st with log := st.log ++ [Effect.consoleError label] }

/-- The call `API.get(url)`. -/
def apiGet (url : String) (st : State) : State :=
  { st with log := st.log ++ [Effect.get url] }

/-- The call `API.post(url, body)`. -/
def apiPost (url : String) (body : JSValue) (st : State) : State :=
  { st with log := st.log ++ [Effect.post url body] }

/-- How an awaited `API.get` or `API.post` settles: it resolves with `res`, of which
the page reads `res.data`, or it rejects. -/
inductive ApiOutcome where
  | resolved (resData : JSValue) : ApiOutcome
  | rejected : ApiOutcome

/-- The destructuring `const { success, message, data } = res.data`: `none` stands
for the `TypeError` on `undefined` and `null`. -/
def destructure (resData : JSValue) : Option (JSValue × JSValue × JSValue) :=
  match resData.prop "success", resData.prop "message", resData.prop "data" with
  | some success, some message, some data => some (success, message, data)
  | _, _, _ => none

/-- The `catch` block of `fetchConsentInfo`. -/
def fetchConsentInfoCatch (t : String → String) (st : State) : State :=
  setError (JSValue.str (t "获取授权信息失败")) (consoleError "Failed to fetch consent info:" st)

/-- The effect run on mount, up to the `await` inside `fetchConsentInfo` or up to the
early `return`. `challenge` is `searchParams.get('consent_challenge')`, `none` for
`null`; `t` is the translation function. The result tells whether a fetch is left
pending. -/
def mountEffect (t : String → String) (challenge : Option String) (st : State) :
    State × Bool :=
  match challenge with
  | none =>
      (setLoading false (setError (JSValue.str (t "缺少 consent_challenge 参数")) st), false)
  | some c =>
      if c = "" then
        (setLoading false (setError (JSValue.str (t "缺少 consent_challenge 参数")) st), false)
      else
        (apiGet ("/oauth/consent?consent_challenge=" ++ c) st, true)

/-- The part of `fetchConsentInfo` after the `await`: the rest of the `try` block, the
`catch` block on a rejection or a `TypeError`, then the `finally` block, which also
runs after the `return` of the redirect branch. -/
def fetchConsentInfoResume (t : String → String) (outcome : ApiOutcome) (st : State) :
    State :=
  let st :=
    match outcome with
    | ApiOutcome.rejected => fetchConsentInfoCatch t st
    | ApiOutcome.resolved resData =>
        match destructure resData with
        | none => fetchConsentInfoCatch t st
        | some (success, message, data) =>
            if success.truthy then
              match data.prop "redirect_to" with
              | none => fetchConsentInfoCatch t st
              | some redirectTo =>
                  if redirectTo.truthy then navigate redirectTo st
                  else setConsentInfo data st
            else
              setError (message.or (JSValue.str (t "获取授权信息失败"))) st
  setLoading false st

/-- The mount effect run to the end with nothing interleaved; the outcome of the
fetch is consulted only when the fetch was issued. -/
def mount (t : String → String) (challenge : Option String) (outcome : ApiOutcome)
    (st : State) : State :=
  match mountEffect t challenge st with
  | (st, false) => st
  | (st, true) => fetchConsentInfoResume t outcome st

/-- The value of `challenge` as it is put into a request body: `null` when the query
parameter is absent. -/
def challengeValue (challenge : Option String) : JSValue :=
  match challenge with
  | none => JSValue.null
  | some c => JSValue.str c

/-- The function `handleApprove` up to its `await`: `setSubmitting(true)`, then the
`POST /oauth/consent` with `consent_challenge`, `grant_scope:
consentInfo?.requested_scope || []` and `remember: true`. -/
def handleApproveBegin (challenge : Option String) (st : State) : State :=
  let st := setSubmitting true st
  apiPost "/oauth/consent"
    (JSValue.obj
      [("consent_challenge", challengeValue challenge),
       ("grant_scope", (st.consentInfo.optProp "requested_scope").or (JSValue.arr [])),
       ("remember", JSValue.bool true)]) st

/-- The function `handleReject` up to its `await`: `setSubmitting(true)`, then the
`POST /oauth/consent/reject` with `consent_challenge` alone. -/
def handleRejectBegin (challenge : Option String) (st : State) : State :=
  let st := setSubmitting true st
  apiPost "/oauth/consent/reject"
    (JSValue.obj [("consent_challenge", challengeValue challenge)]) st

/-- The part after the `await` that `handleApprove` and `handleReject` share up to
their texts: `label` is the text given to `console.error`, `failed` the key of the
fallback of `showError(message || t(failed))`, `retry` the key shown by the `catch`
block. The test `success && data.redirect_to` reads `data` only when `success` is
truthy; the `finally` block runs on every path. -/
def submitResume (label failed retry : String) (t : String → String)
    (outcome : ApiOutcome) (st : State) : State :=
  let caught := showError (JSValue.str (t retry)) (consoleError label st)
  let st :=
    match outcome with
    | ApiOutcome.rejected => caught
    | ApiOutcome.resolved resData =>
        match destructure resData with
        | none => caught
        | some (success, message, data) =>
            if success.truthy then
              match data.prop "redirect_to" with
              | none => caught
              | some redirectTo =>
                  if redirectTo.truthy then navigate redirectTo st
                  else showError (message.or (JSValue.str (t failed))) st
            else
              showError (message.or (JSValue.str (t failed))) st
  setSubmitting false st

/-- The part of `handleApprove` after its `await`. -/
def handleApproveResume (t : String → String) (outcome : ApiOutcome) (st : State) : State :=
  submitResume "Consent approval failed:" "授权失败" "授权失败，请重试" t outcome st

/-- The part of `handleReject` after its `await`. -/
def handleRejectResume (t : String → String) (outcome : ApiOutcome) (st : State) : State :=
  submitResume "Consent rejection failed:" "操作失败" "操作失败，请重试" t outcome st

/-- What the component returns. `threw` stands for an error thrown during render:
`.map` called on a `requested_scope` that is neither absent nor an array, a scope
that cannot be converted to a property key, or a row React cannot render. -/
inductive View where
  | loading : View
  | error (message : JSValue) : View
  | form (clientName : JSValue) (scopes : List ScopeInfo) (submitting : Bool) : View
  | threw : View

/-- The render branches of `OAuthConsent`: the spinner while `loading`, the error card
when `error` is truthy, else the consent form, with the title
`consentInfo?.client_name || t('第三方应用')`, one row per element of
`consentInfo?.requested_scope?.map(...)` and the reject and approve buttons. The
title and the error text are strings by the provider's contract and are taken to be
renderable. -/
def render (t : String → String) (isEnglish : Bool) (st : State) : View :=
  if st.loading then View.loading
  else if st.error.truthy then View.error st.error
  else
    let clientName := (st.consentInfo.optProp "client_name").or (JSValue.str (t "第三方应用"))
    match st.consentInfo.optProp "requested_scope" with
    | JSValue.undefined => View.form clientName [] st.submitting
    | JSValue.null => View.form clientName [] st.submitting
    | JSValue.arr items =>
        match scopeRows isEnglish items with
        | none => View.threw
        | some rows =>
            if rows.all rowRenders then View.form clientName rows st.submitting
            else View.threw
    | _ => View.threw

/-- Whether the view is the consent form. -/
def View.isForm : View → Bool
  | View.form _ _ _ => true
  | _ => false

/-- Whether the view is the error card. -/
def View.isError : View → Bool
  | View.error _ => true
  | _ => false

/-- A response body of `GET /oauth/consent` that reports success and carries a
`redirect_to`. -/
def alreadyConsented : JSValue :=
  JSValue.obj
    [("success", JSValue.bool true), ("message", JSValue.str ""),
     ("data", JSValue.obj [("redirect_to", JSValue.str "https://x")])]

/-- The page after mounting with `consent_challenge=abc`, the fetch answering
`alreadyConsented`, and the translation function that returns its key. -/
def alreadyConsentedRun : State :=
  mount id (some "abc") (ApiOutcome.resolved alreadyConsented) State.initial

/-- A response body of `GET /oauth/consent` that reports success and carries no
`redirect_to`. -/
def consentPending : JSValue :=
  JSValue.obj
    [("success", JSValue.bool true), ("message", JSValue.str ""),
     ("data", JSValue.obj
        [("client_name", JSValue.str "Demo"),
         ("requested_scope",
            JSValue.arr [JSValue.str "openid", JSValue.str "unknown:scope"])])]

/-- The page after mounting with `consent_challenge=abc`, the fetch answering
`consentPending`, and the translation function that returns its key. -/
def consentPendingRun : State :=
  mount id (some "abc") (ApiOutcome.resolved consentPending) State.initial

/-- The names inherited from `Object.prototype`. -/
def inheritedNames : List String :=
  objectPrototype.map Prod.fst

/-- A response body of `GET /oauth/consent` that reports success, carries no
`redirect_to`, and requests the scopes `openid` and `constructor`. -/
def inheritedScopePending : JSValue :=
  JSValue.obj
    [("success", JSValue.bool true), ("message", JSValue.str ""),
     ("data", JSValue.obj
        [("client_name", JSValue.str "Demo"),
         ("requested_scope",
            JSValue.arr [JSValue.str "openid", JSValue.str "constructor"])])]

/-- The page after mounting with `consent_challenge=abc`, the fetch answering
`inheritedScopePending`, and the translation function that returns its key. -/
def inheritedScopeRun : State :=
  mount id (some "abc") (ApiOutcome.resolved inheritedScopePending) State.initial

/-- The messages given to `showError`, in order. -/
def shownErrors : List Effect → List JSValue
  | [] => []
  | Effect.showError message :: rest => message :: shownErrors rest
  | _ :: rest => shownErrors rest

/-- The values assigned to `window.location.href`, in order. -/
def navigations : List Effect → List JSValue
  | [] => []
  | Effect.navigate href :: rest => href :: navigations rest
  | _ :: rest => navigations rest

/-- A response body `{success: false, message}` without `data`. -/
def failureBody (message : String) : JSValue :=
  JSValue.obj [("success", JSValue.bool false), ("message", JSValue.str message)]

/-- A response body `{success: true, message: '', data: {redirect_to: u}}`. -/
def redirectBody (u : String) : JSValue :=
  JSValue.obj
    [("success", JSValue.bool true), ("message", JSValue.str ""),
     ("data", JSValue.obj [("redirect_to", JSValue.str u)])]

/-- A submission that went from `st` to `st'` failed softly with the message `m`:
nothing was assigned to `window.location.href`, `m` is the one message given to
`showError`, `submitting` is false again, `loading`, `error` and `consentInfo` are as
before, and a page that showed the consent form still shows it, with the same title
and rows and with its buttons released. -/
def SoftFailure (t : String → String) (st st' : State) (m : JSValue) : Prop :=
  st'.href = st.href ∧
  navigations st'.log = navigations st.log ∧
  shownErrors st'.log = shownErrors st.log ++ [m] ∧
  st'.submitting = false ∧
  st'.loading = st.loading ∧
  st'.error = st.error ∧
  st'.consentInfo = st.consentInfo ∧
  ∀ (isEnglish : Bool) (title : JSValue) (rows : List ScopeInfo) (busy : Bool),
    render t isEnglish st = View.form title rows busy →
    render t isEnglish st' = View.form title rows false

/-- A response body `{success: true, message}` without `data`. -/
def successNoData (message : String) : JSValue :=
  JSValue.obj [("success", JSValue.bool true), ("message", JSValue.str message)]

/-- The ready state reached from `consentPending`, after the user pressed approve. -/
def approvePressed : State :=
  handleApproveBegin (some "abc") consentPendingRun

/-- The ready state reached from `consentPending`, after the user pressed reject. -/
def rejectPressed : State :=
  handleRejectBegin (some "abc") consentPendingRun

/-! ### The page over time -/

/-- Whether a fetch settled as a success: the promise resolved, the body could be
destructured, `success` was truthy and `data.redirect_to` could be read, so the
`if (success)` branch of the `try` block ran without throwing. -/
def ApiOutcome.succeeded : ApiOutcome → Bool
  | ApiOutcome.rejected => false
  | ApiOutcome.resolved resData =>
      match destructure resData with
      | none => false
      | some (success, _, data) => success.truthy && (data.prop "redirect_to").isSome

/-- What can happen on the page after the mount effect ran: the fetch settles, the
user presses a button of the consent form, or a submission settles. -/
inductive PageEvent where
  | fetchSettles (outcome : ApiOutcome) : PageEvent
  | pressApprove : PageEvent
  | pressReject : PageEvent
  | approveSettles (outcome : ApiOutcome) : PageEvent
  | rejectSettles (outcome : ApiOutcome) : PageEvent

/-- The page over time: its state, whether the fetch is still pending, how the fetch
settled once it has, and how many submissions of either kind are pending. -/
structure Page where
  state : State
  fetchPending : Bool
  fetched : Option ApiOutcome
  approving : Nat
  rejecting : Nat

/-- The page once the mount effect has run on the initial state. -/
def Page.mounted (t : String → String) (challenge : Option String) : Page :=
  { state := (mountEffect t challenge State.initial).1,
    fetchPending := (mountEffect t challenge State.initial).2,
    fetched := none, approving := 0, rejecting := 0 }

/-- One event. The fetch settles only while it is pending, a button is pressed only
while the consent form with its buttons is rendered, a submission settles only while
one of its kind is pending; an event that is not possible changes nothing. -/
def Page.step (t : String → String) (isEnglish : Bool) (challenge : Option String)
    (pg : Page) : PageEvent → Page
  | PageEvent.fetchSettles outcome =>
      if pg.fetchPending then
        { pg with state := fetchConsentInfoResume t outcome pg.state,
                  fetchPending := false, fetched := some outcome }
      else pg
  | PageEvent.pressApprove =>
      if (render t isEnglish pg.state).isForm then
        { pg with state := handleApproveBegin challenge pg.state,
                  approving := pg.approving + 1 }
      else pg
  | PageEvent.pressReject =>
      if (render t isEnglish pg.state).isForm then
        { pg with state := handleRejectBegin challenge pg.state,
                  rejecting := pg.rejecting + 1 }
      else pg
  | PageEvent.approveSettles outcome =>
      if 0 < pg.approving then
        { pg with state := handleApproveResume t outcome pg.state,
                  approving := pg.approving - 1 }
      else pg
  | PageEvent.rejectSettles outcome =>
      if 0 < pg.rejecting then
        { pg with state := handleRejectResume t outcome pg.state,
                  rejecting := pg.rejecting - 1 }
      else pg

/-- The page after a sequence of events that follow the mount. -/
def Page.run (t : String → String) (isEnglish : Bool) (challenge : Option String)
    (events : List PageEvent) : Page :=
  events.foldl (Page.step t isEnglish challenge) (Page.mounted t challenge)

/-- The invariant of the page: while the fetch is pending the page is loading and no
fetch has settled; and the page is loading, or shows an error, or the fetch settled as
a success. -/
def Page.Inv (pg : Page) : Prop :=
  (pg.fetchPending = true → pg.state.loading = true ∧ pg.fetched = none) ∧
  (pg.state.loading = true ∨ pg.state.error.truthy = true ∨
    ∃ outcome, pg.fetched = some outcome ∧ outcome.succeeded = true)

end OAuthConsent

/-! ## Lemmas on plain objects -/

namespace OAuthTest

namespace JSObj

variable {α : Type}

theorem read_cons (k' : String) (w : α) (rest : JSObj α) (k : String) :
    read ((k', w) :: rest) k = if k' = k then some w else read rest k := rfl

theorem has_cons (k' : String) (w : α) (rest : JSObj α) (k : String) :
    has ((k', w) :: rest) k = (k' == k || has rest k) := by
  simp [has]

theorem read_eq_none_of_not_has (o : JSObj α) (k : String) (h : has o k = false) :
    read o k = none := by
  induction o with
  | nil => rfl
  | cons p rest ih =>
    obtain ⟨k', v⟩ := p
    rw [has_cons] at h
    simp only [Bool.or_eq_false_iff, beq_eq_false_iff_ne, ne_eq] at h
    rw [read_cons, if_neg h.1]
    exact ih h.2

theorem read_replace (o : JSObj α) (k : String) (v : α) (h : has o k = true) :
    read (o.map (fun p => if p.1 = k then (k, v) else p)) k = some v := by
  induction o with
  | nil => simp [has] at h
  | cons p rest ih =>
    obtain ⟨k', w⟩ := p
    rw [List.map_cons]
    show read ((if k' = k then (k, v) else (k', w)) :: _) k = _
    by_cases hk : k' = k
    · rw [if_pos hk, read_cons, if_pos rfl]
    · have hrest : has rest k = true := by
        rw [has_cons] at h
        simpa [hk] using h
      rw [if_neg hk, read_cons, if_neg hk]
      exact ih hrest

theorem read_replace_of_ne (o : JSObj α) (k k' : String) (v : α) (hne : k' ≠ k) :
    read (o.map (fun p => if p.1 = k then (k, v) else p)) k' = read o k' := by
  induction o with
  | nil => rfl
  | cons p rest ih =>
    obtain ⟨j, w⟩ := p
    rw [List.map_cons]
    show read ((if j = k then (k, v) else (j, w)) :: _) k' = _
    by_cases hk : j = k
    · have h1 : ¬ k = k' := fun h => hne h.symm
      have h2 : ¬ j = k' := fun h => h1 (hk ▸ h)
      rw [if_pos hk, read_cons, if_neg h1, read_cons, if_neg h2]
      exact ih
    · rw [if_neg hk, read_cons, read_cons]
      by_cases h2 : j = k'
      · rw [if_pos h2, if_pos h2]
      · rw [if_neg h2, if_neg h2]
        exact ih

theorem read_append_singleton_of_not_has (o : JSObj α) (k : String) (v : α)
    (h : has o k = false) : read (o ++ [(k, v)]) k = some v := by
  induction o with
  | nil => simp [read]
  | cons p rest ih =>
    obtain ⟨k', w⟩ := p
    simp only [has, List.any_cons, Bool.or_eq_false_iff, beq_eq_false_iff_ne, ne_eq] at h
    simp only [List.cons_append, read, if_neg h.1]
    exact ih h.2

theorem read_append_singleton_of_ne (o : JSObj α) (k k' : String) (v : α) (hne : k' ≠ k) :
    read (o ++ [(k, v)]) k' = read o k' := by
  induction o with
  | nil =>
    have h1 : ¬ k = k' := fun h => hne h.symm
    simp [read, h1]
  | cons p rest ih =>
    obtain ⟨j, w⟩ := p
    simp only [List.cons_append, read]
    by_cases h2 : j = k'
    · simp [h2]
    · simp only [if_neg h2]
      exact ih

/-- Reading back the key just assigned. -/
theorem read_assign_self (o : JSObj α) (k : String) (v : α) :
    read (assign o k v) k = some v := by
  unfold assign
  by_cases h : has o k = true
  · rw [if_pos h]; exact read_replace o k v h
  · rw [if_neg h]
    exact read_append_singleton_of_not_has o k v (by simpa using h)

/-- Assigning a key leaves every other key as it was. -/
theorem read_assign_of_ne (o : JSObj α) (k k' : String) (v : α) (hne : k' ≠ k) :
    read (assign o k v) k' = read o k' := by
  unfold assign
  by_cases h : has o k = true
  · rw [if_pos h]; exact read_replace_of_ne o k k' v hne
  · rw [if_neg h]; exact read_append_singleton_of_ne o k k' v hne

/-- A deleted key reads as `undefined`. -/
theorem read_remove_self (o : JSObj α) (k : String) : read (remove o k) k = none := by
  induction o with
  | nil => rfl
  | cons p rest ih =>
    obtain ⟨k', w⟩ := p
    by_cases hk : k' = k
    · simpa [remove, hk] using ih
    · have : (remove ((k', w) :: rest) k) = (k', w) :: remove rest k := by
        simp [remove, hk]
      rw [this]
      simp only [read, if_neg hk]
      exact ih

/-- Deleting a key leaves every other key as it was. -/
theorem read_remove_of_ne (o : JSObj α) (k k' : String) (hne : k' ≠ k) :
    read (remove o k) k' = read o k' := by
  induction o with
  | nil => rfl
  | cons p rest ih =>
    obtain ⟨j, w⟩ := p
    by_cases hk : j = k
    · subst hk
      have h1 : ¬ j = k' := fun h => hne h.symm
      have : (remove ((j, w) :: rest) j) = remove rest j := by
        simp [remove]
      rw [this]
      simp only [read, if_neg h1]
      exact ih
    · have : (remove ((j, w) :: rest) k) = (j, w) :: remove rest k := by
        simp [remove, hk]
      rw [this]
      simp only [read]
      by_cases h2 : j = k'
      · simp [h2]
      · simp only [if_neg h2]
        exact ih

/-- Deleting twice is deleting once. -/
theorem remove_remove (o : JSObj α) (k : String) : remove (remove o k) k = remove o k := by
  simp [remove, List.filter_filter]

/-- Deleting a key that is not an own property changes nothing. -/
theorem remove_of_not_has (o : JSObj α) (k : String) (h : has o k = false) :
    remove o k = o := by
  unfold remove
  rw [List.filter_eq_self]
  intro p hp
  simp only [has, List.any_eq_false, beq_iff_eq] at h
  simpa using h p hp

/-- A key is an own property exactly when reading it yields a value. -/
theorem has_iff_read_isSome (o : JSObj α) (k : String) :
    has o k = true ↔ (read o k).isSome = true := by
  induction o with
  | nil => simp [has, read]
  | cons p rest ih =>
    obtain ⟨k', w⟩ := p
    by_cases hk : k' = k
    · simp [has, read, hk]
    · have : has ((k', w) :: rest) k = has rest k := by simp [has, hk]
      rw [this, ih]
      simp [read, hk]

end JSObj

end OAuthTest

/-! ## The call tracker: theorems -/

namespace OAuthTest

theorem storeResult_sameAt (k1 k2 : String) (hne : k1 ≠ k2) (r : CallResult) (st : Store) :
    Store.sameAt k2 st (storeResult k1 r st) :=
  ⟨JSObj.read_assign_of_ne st.results k1 k2 r (fun h => hne h.symm), rfl⟩

theorem storeLoading_sameAt (k1 k2 : String) (hne : k1 ≠ k2) (b : Bool) (st : Store) :
    Store.sameAt k2 st (storeLoading k1 b st) :=
  ⟨rfl, JSObj.read_assign_of_ne st.loading k1 k2 b (fun h => hne h.symm)⟩

theorem callTransport_sameAt (k : String) (request : SentRequest) (st : Store) :
    Store.sameAt k st (callTransport request st) :=
  ⟨rfl, rfl⟩

theorem Store.sameAt_trans {k : String} {a b c : Store} (h1 : Store.sameAt k a b)
    (h2 : Store.sameAt k b c) : Store.sameAt k a c :=
  ⟨h2.1.trans h1.1, h2.2.trans h1.2⟩

theorem makeRequestResume_sameAt (k1 k2 : String) (hne : k1 ≠ k2) (startTime now : Int)
    (outcome : Outcome) (st : Store) :
    Store.sameAt k2 st
      (makeRequestResume { key := k1, startTime := startTime } outcome now st) := by
  cases outcome with
  | resolved response =>
    exact Store.sameAt_trans (storeResult_sameAt k1 k2 hne _ st)
      (storeLoading_sameAt k1 k2 hne false _)
  | rejected error =>
    exact Store.sameAt_trans (storeResult_sameAt k1 k2 hne _ st)
      (storeLoading_sameAt k1 k2 hne false _)

theorem providerBegin_sameAt (k1 k2 : String) (hne : k1 ≠ k2) (config : RequestConfig)
    (now : Int) (st : Store) :
    Store.sameAt k2 st (OAuthProviderTest.makeRequestBegin k1 config now st).1 :=
  Store.sameAt_trans (storeLoading_sameAt k1 k2 hne true st) (callTransport_sameAt k2 _ _)

theorem apiBegin_sameAt (k1 k2 : String) (hne : k1 ≠ k2) (bearerToken : String)
    (config : RequestConfig) (now : Int) (st : Store) :
    Store.sameAt k2 st (OAuthAPITest.makeRequestBegin bearerToken k1 config now st).1 := by
  unfold OAuthAPITest.makeRequestBegin
  by_cases h : bearerToken = ""
  · rw [if_pos h]
    exact storeResult_sameAt k1 k2 hne _ st
  · rw [if_neg h]
    exact Store.sameAt_trans (storeLoading_sameAt k1 k2 hne true st)
      (callTransport_sameAt k2 _ _)

/-- C1. Isolation of the tracker: for keys `k1 ≠ k2` and every store, each part of
`makeRequest(k1, config)` leaves `results[k2]` and `loading[k2]` as they were. This
holds for the part before the `await` in both panels (the guard path of the API panel
included), for the part after the `await` run from any store the interleaved events
may have produced (success and error paths, then the reset of `loading[k1]`), and for
a whole run in both panels. -/
theorem makeRequest_isolation (k1 k2 : String) (hne : k1 ≠ k2) (bearerToken : String)
    (config : RequestConfig) (start finish : Int) (outcome : Outcome) (st : Store) :
    Store.sameAt k2 st (OAuthProviderTest.makeRequestBegin k1 config start st).1 ∧
    Store.sameAt k2 st (OAuthAPITest.makeRequestBegin bearerToken k1 config start st).1 ∧
    Store.sameAt k2 st
      (makeRequestResume { key := k1, startTime := start } outcome finish st) ∧
    Store.sameAt k2 st (OAuthProviderTest.makeRequest k1 config start finish outcome st) ∧
    Store.sameAt k2 st
      (OAuthAPITest.makeRequest bearerToken k1 config start finish outcome st) := by
  refine ⟨providerBegin_sameAt k1 k2 hne config start st,
    apiBegin_sameAt k1 k2 hne bearerToken config start st,
    makeRequestResume_sameAt k1 k2 hne start finish outcome st, ?_, ?_⟩
  · exact Store.sameAt_trans (providerBegin_sameAt k1 k2 hne config start st)
      (makeRequestResume_sameAt k1 k2 hne start finish outcome _)
  · unfold OAuthAPITest.makeRequest
    have hb := apiBegin_sameAt k1 k2 hne bearerToken config start st
    unfold OAuthAPITest.makeRequestBegin at hb ⊢
    by_cases h : bearerToken = ""
    · rw [if_pos h] at hb ⊢
      exact hb
    · rw [if_neg h] at hb ⊢
      exact Store.sameAt_trans hb (makeRequestResume_sameAt k1 k2 hne start finish outcome _)

/-- Witness of C1: a request under `getUserInfo` that fails with a network error
leaves the result and the loading flag of `getBalance` in place. -/
theorem makeRequest_isolation_witness :
    "getUserInfo" ≠ "getBalance" ∧
    Store.sameAt "getBalance" sampleStore
      (OAuthProviderTest.makeRequest "getUserInfo"
        { method := "GET", url := "/api/v1/oauth/userinfo" } 100 130
        (Outcome.rejected { response := none, message := "Network Error" }) sampleStore) :=
  ⟨by decide,
   (makeRequest_isolation "getUserInfo" "getBalance" (by decide) "token"
      { method := "GET", url := "/api/v1/oauth/userinfo" } 100 130
      (Outcome.rejected { response := none, message := "Network Error" }) sampleStore).2.2.2.1⟩

/-- C2. Guard short-circuit: with an empty bearer token, `makeRequest` of the API
panel stores under the key exactly `{status: 0, data: {error: 'Bearer token is
required'}, responseTime: 0}`, its only effect is that one `setResults` (so the
transport is never called and the loading map is untouched), nothing is left pending,
and the whole run ends in that store whatever the transport would have answered. -/
theorem makeRequest_guard (key : String) (config : RequestConfig) (start finish : Int)
    (outcome : Outcome) (st : Store) :
    let st' := (OAuthAPITest.makeRequestBegin "" key config start st).1
    st'.results.read key = some guardResult ∧
    st'.log = st.log ++ [Effect.setResults key guardResult] ∧
    st'.transportCalls = st.transportCalls ∧
    st'.loading = st.loading ∧
    (OAuthAPITest.makeRequestBegin "" key config start st).2 = none ∧
    OAuthAPITest.makeRequest "" key config start finish outcome st = st' := by
  refine ⟨?_, rfl, ?_, rfl, rfl, rfl⟩
  · exact JSObj.read_assign_self st.results key guardResult
  · show List.countP Effect.isTransport (st.log ++ [Effect.setResults key guardResult])
      = List.countP Effect.isTransport st.log
    simp [List.countP_append, Effect.isTransport]

theorem countP_isTransport_append (l : List Effect) (e : Effect) :
    List.countP Effect.isTransport (l ++ [e]) =
      List.countP Effect.isTransport l + (if e.isTransport then 1 else 0) := by
  rw [List.countP_append]
  cases h : e.isTransport <;> simp [List.countP_cons, h]

/-- C3, the claim as stated fails: the transport resolves with `{status: 200, data: 7}`
while the wall clock steps back between the two readings of `Date.now()` (10 at
dispatch, 8 at completion). Status and body are stored verbatim, but the stored
response time is `8 - 10 = -2`, which is negative. -/
theorem makeRequest_roundtrip_clock_counterexample :
    ∃ r : CallResult,
      (OAuthProviderTest.makeRequest "getLogout" { method := "GET", url := "/oauth/logout" }
          10 8 (Outcome.resolved { status := 200, data := JSValue.num 7 })
          Store.initial).results.read "getLogout" = some r ∧
      r.status = 200 ∧ r.data = JSValue.num 7 ∧ r.responseTime = -2 ∧
      ¬ (0 ≤ r.responseTime) :=
  ⟨{ status := 200, data := JSValue.num 7, responseTime := 8 - 10 }, rfl, rfl, rfl, rfl,
    by decide⟩

/-- C3, amended. Round trip of a transport response: every status is accepted by
`validateStatus`, and when the transport resolves with `{status: s, data: X}` the
result stored for the key is `{status: s, data: X, responseTime: finish - start}`,
with `s` and `X` verbatim whatever `s` is, where `start` and `finish` are the readings
of `Date.now()` at dispatch and at completion. This holds for the continuation run
from any store and for a whole run of either panel (the API panel with a non-empty
bearer token), whose effects are exactly: mark loading, call the transport, store that
one result, reset loading. The response time is non-negative exactly when the reading
at completion is not earlier than the one at dispatch. -/
theorem makeRequest_roundtrip (k : String) (s : Int) (X : JSValue) (bearerToken : String)
    (htoken : bearerToken ≠ "") (config : RequestConfig) (start finish : Int)
    (st : Store) :
    let r : CallResult := { status := s, data := X, responseTime := finish - start }
    let out := Outcome.resolved { status := s, data := X }
    validateStatus s = true ∧
    (0 ≤ r.responseTime ↔ start ≤ finish) ∧
    (makeRequestResume { key := k, startTime := start } out finish st).results.read k
      = some r ∧
    (OAuthProviderTest.makeRequest k config start finish out st).results.read k = some r ∧
    (OAuthProviderTest.makeRequest k config start finish out st).log
      = st.log ++ [Effect.setLoading k true,
          Effect.transport { config := config, authorization := none },
          Effect.setResults k r, Effect.setLoading k false] ∧
    (OAuthAPITest.makeRequest bearerToken k config start finish out st).results.read k
      = some r ∧
    (OAuthAPITest.makeRequest bearerToken k config start finish out st).log
      = st.log ++ [Effect.setLoading k true,
          Effect.transport
            { config := config, authorization := some ("Bearer " ++ bearerToken) },
          Effect.setResults k r, Effect.setLoading k false] := by
  intro r out
  refine ⟨rfl, ?_, ?_, ?_, ?_, ?_, ?_⟩
  · show 0 ≤ finish - start ↔ start ≤ finish
    omega
  · exact JSObj.read_assign_self _ k r
  · exact JSObj.read_assign_self _ k r
  · simp [OAuthProviderTest.makeRequest, OAuthProviderTest.makeRequestBegin,
      makeRequestResume, storeResult, storeLoading, callTransport, r, out]
  · simp only [OAuthAPITest.makeRequest, OAuthAPITest.makeRequestBegin, if_neg htoken]
    exact JSObj.read_assign_self _ k r
  · simp [OAuthAPITest.makeRequest, OAuthAPITest.makeRequestBegin, if_neg htoken,
      makeRequestResume, storeResult, storeLoading, callTransport, r, out]

/-- Witness of C3: a 404 with a JSON body is stored verbatim under its key. -/
theorem makeRequest_roundtrip_witness :
    (OAuthAPITest.makeRequest "tok" "getTokens" { method := "GET", url := "/api/v1/oauth/tokens" }
        1000 1042
        (Outcome.resolved
          { status := 404, data := JSValue.obj [("message", JSValue.str "not found")] })
        Store.initial).results.read "getTokens"
      = some { status := 404, data := JSValue.obj [("message", JSValue.str "not found")],
               responseTime := 1042 - 1000 } :=
  (makeRequest_roundtrip "getTokens" 404 (JSValue.obj [("message", JSValue.str "not found")])
    "tok" (by decide) { method := "GET", url := "/api/v1/oauth/tokens" } 1000 1042
    Store.initial).2.2.2.2.2.1

theorem errorStatus_eq (error : TransportError) :
    errorStatus error = (error.response.map (fun r => r.status)).getD 0 := by
  unfold errorStatus
  cases h : error.response with
  | none => rfl
  | some r =>
    by_cases h0 : r.status = 0
    · simp [h0]
    · simp [h0]

/-- C4, the claim as stated fails: the transport rejects with an error whose response
carries the payload `0`; the stored body is `{error: 'Request failed'}` and not that
payload. -/
theorem makeRequest_error_payload_counterexample :
    ∃ r : CallResult,
      (OAuthProviderTest.makeRequest "getLogout" { method := "GET", url := "/oauth/logout" }
          10 25
          (Outcome.rejected
            { response := some { status := 500, data := JSValue.num 0 },
              message := "Request failed" })
          Store.initial).results.read "getLogout" = some r ∧
      r.status = 500 ∧
      r.data = JSValue.obj [("error", JSValue.str "Request failed")] ∧
      r.data ≠ JSValue.num 0 :=
  ⟨{ status := 500, data := JSValue.obj [("error", JSValue.str "Request failed")],
     responseTime := 25 - 10 }, rfl, rfl, rfl, by simp⟩

/-- C4, amended. Transport failures become data: for every error the transport
rejects with, the continuation of `makeRequest`, run from any store, stores under the
key a result whose status is the error's response status if a response is present,
else 0, and whose body is the response payload if a response is present and its
payload is truthy, else `{error: <error message>}`; the response time is the
difference of the clock readings, and the key's loading flag is reset. -/
theorem makeRequest_error_as_data (k : String) (error : TransportError)
    (start finish : Int) (st : Store) :
    let st' := makeRequestResume { key := k, startTime := start } (Outcome.rejected error)
      finish st
    st'.results.read k = some
      { status := (error.response.map (fun r => r.status)).getD 0,
        data :=
          match error.response with
          | some r =>
              if r.data.truthy = true then r.data
              else JSValue.obj [("error", JSValue.str error.message)]
          | none => JSValue.obj [("error", JSValue.str error.message)],
        responseTime := finish - start } ∧
    st'.loading.read k = some false := by
  intro st'
  refine ⟨?_, JSObj.read_assign_self _ k false⟩
  have h : st'.results.read k = some
      { status := errorStatus error, data := errorData error,
        responseTime := finish - start } := JSObj.read_assign_self _ k _
  rw [h, errorStatus_eq]
  congr 2
  unfold errorData
  cases error.response with
  | none => rfl
  | some r => rfl

/-- C5. After `clearResult(k)` the lookup `results[k]` among the own properties of
the results map yields no result, for every store and every key, stored before or
not; `clearResult` is a total function, and it leaves the loading map alone. -/
theorem clearResult_read (k : String) (st : Store) :
    (clearResult k st).results.read k = none ∧
    (clearResult k st).loading = st.loading :=
  ⟨JSObj.read_remove_self st.results k, rfl⟩

/-- C6. The function `clearResult` is idempotent on the results map, and when the key
holds no result it leaves the results map exactly as it was. -/
theorem clearResult_idempotent (k : String) (st : Store) :
    (clearResult k (clearResult k st)).results = (clearResult k st).results ∧
    (st.results.read k = none → (clearResult k st).results = st.results) := by
  refine ⟨JSObj.remove_remove st.results k, fun h => ?_⟩
  apply JSObj.remove_of_not_has
  cases hh : JSObj.has st.results k with
  | false => rfl
  | true =>
    have := (JSObj.has_iff_read_isSome st.results k).1 hh
    rw [h] at this
    exact absurd this (by decide)

/-- Witness of C6: clearing `getUsage`, which holds no result in `sampleStore`, leaves
the results map as it was. -/
theorem clearResult_idempotent_witness :
    sampleStore.results.read "getUsage" = none ∧
    (clearResult "getUsage" sampleStore).results = sampleStore.results :=
  ⟨rfl, (clearResult_idempotent "getUsage" sampleStore).2 rfl⟩

/-- C7. In-flight lifecycle of one call. In both panels (the API panel with a
non-empty bearer token) the part of `makeRequest(k, config)` before the `await` first
sets `loading[k] = true`, with no transport call made yet, and then calls the
transport once. The continuation, run from any store and whether the transport
resolved or rejected, ends with `loading[k] = false` and a result stored for `k`. -/
theorem makeRequest_lifecycle (k : String) (config : RequestConfig) (bearerToken : String)
    (htoken : bearerToken ≠ "") (start finish : Int) (outcome : Outcome) (st st' : Store) :
    ((storeLoading k true st).loading.read k = some true ∧
      (storeLoading k true st).transportCalls = st.transportCalls) ∧
    (OAuthProviderTest.makeRequestBegin k config start st
        = (callTransport { config := config, authorization := none }
            (storeLoading k true st), { key := k, startTime := start }) ∧
      (OAuthProviderTest.makeRequestBegin k config start st).1.loading.read k = some true ∧
      (OAuthProviderTest.makeRequestBegin k config start st).1.transportCalls
        = st.transportCalls + 1) ∧
    (OAuthAPITest.makeRequestBegin bearerToken k config start st
        = (callTransport
            { config := config, authorization := some ("Bearer " ++ bearerToken) }
            (storeLoading k true st), some { key := k, startTime := start }) ∧
      (OAuthAPITest.makeRequestBegin bearerToken k config start st).1.loading.read k
        = some true ∧
      (OAuthAPITest.makeRequestBegin bearerToken k config start st).1.transportCalls
        = st.transportCalls + 1) ∧
    ((makeRequestResume { key := k, startTime := start } outcome finish st').loading.read k
        = some false ∧
      ∃ r, (makeRequestResume { key := k, startTime := start } outcome finish
        st').results.read k = some r) := by
  have hload : (storeLoading k true st).loading.read k = some true :=
    JSObj.read_assign_self _ k true
  have hcalls : (storeLoading k true st).transportCalls = st.transportCalls := by
    show List.countP Effect.isTransport (st.log ++ [Effect.setLoading k true]) = _
    rw [countP_isTransport_append]; rfl
  have hcalls2 : ∀ req, (callTransport req (storeLoading k true st)).transportCalls
      = st.transportCalls + 1 := by
    intro req
    show List.countP Effect.isTransport
      ((storeLoading k true st).log ++ [Effect.transport req]) = _
    rw [countP_isTransport_append]
    show (storeLoading k true st).transportCalls + 1 = _
    rw [hcalls]
  have hapi : OAuthAPITest.makeRequestBegin bearerToken k config start st
      = (callTransport
          { config := config, authorization := some ("Bearer " ++ bearerToken) }
          (storeLoading k true st), some { key := k, startTime := start }) := by
    simp only [OAuthAPITest.makeRequestBegin, if_neg htoken]
  refine ⟨⟨hload, hcalls⟩, ⟨rfl, hload, hcalls2 _⟩, ⟨hapi, ?_, ?_⟩, ?_, ?_⟩
  · rw [hapi]; exact hload
  · rw [hapi]; exact hcalls2 _
  · exact JSObj.read_assign_self _ k false
  · cases outcome with
    | resolved response => exact ⟨_, JSObj.read_assign_self _ k _⟩
    | rejected error => exact ⟨_, JSObj.read_assign_self _ k _⟩

/-- Witness of C7: a request under `getBalance` that is rejected without a response
still ends with the loading flag reset. -/
theorem makeRequest_lifecycle_witness :
    (makeRequestResume { key := "getBalance", startTime := 5 }
        (Outcome.rejected { response := none, message := "timeout" }) 9
        sampleStore).loading.read "getBalance" = some false :=
  (makeRequest_lifecycle "getBalance" { method := "GET", url := "/api/v1/oauth/balance" }
    "tok" (by decide) 5 9 (Outcome.rejected { response := none, message := "timeout" })
    Store.initial sampleStore).2.2.2.1

end OAuthTest

/-! ## The consent page: theorems -/

namespace OAuthConsent

open OAuthTest

theorem countP_isNetwork_append (l : List Effect) (e : Effect) :
    List.countP Effect.isNetwork (l ++ [e]) =
      List.countP Effect.isNetwork l + (if e.isNetwork then 1 else 0) := by
  rw [List.countP_append]
  cases h : e.isNetwork <;> simp [List.countP_cons, h]

theorem truthy_str_of_ne_empty (s : String) (h : s ≠ "") : (JSValue.str s).truthy = true := by
  simp [JSValue.truthy, h]

/-- C8. Missing challenge: when `consent_challenge` is absent from the query string,
the mount effect sets the error to the translated 'missing consent_challenge'
message, sets `loading` to false, issues no network call and leaves no fetch pending;
these two updates are its only effects. When that translation is a non-empty string,
the error is truthy and the page renders the error card with that message. -/
theorem mount_missing_challenge (t : String → String)
    (ht : t "缺少 consent_challenge 参数" ≠ "") (isEnglish : Bool) (outcome : ApiOutcome)
    (st : State) :
    let msg := JSValue.str (t "缺少 consent_challenge 参数")
    let st' := mount t none outcome st
    mountEffect t none st = (st', false) ∧
    st'.error = msg ∧
    msg.truthy = true ∧
    st'.loading = false ∧
    st'.log = st.log ++ [Effect.setError msg, Effect.setLoading false] ∧
    st'.networkCalls = st.networkCalls ∧
    render t isEnglish st' = View.error msg := by
  intro msg st'
  have htr : msg.truthy = true := truthy_str_of_ne_empty _ ht
  refine ⟨rfl, rfl, htr, rfl, ?_, ?_, ?_⟩
  · simp [st', msg, mount, mountEffect, setLoading, setError]
  · show List.countP Effect.isNetwork ((st.log ++ [Effect.setError msg])
      ++ [Effect.setLoading false]) = List.countP Effect.isNetwork st.log
    rw [countP_isNetwork_append, countP_isNetwork_append]
    rfl
  · have hl : st'.loading = false := rfl
    have he : st'.error = msg := rfl
    simp only [render, hl, he, htr]
    rfl

/-- Witness of C8, with the translation function that returns its key. -/
theorem mount_missing_challenge_witness :
    render id false (mount id none ApiOutcome.rejected State.initial)
      = View.error (JSValue.str "缺少 consent_challenge 参数") :=
  (mount_missing_challenge id (by decide) false ApiOutcome.rejected State.initial).2.2.2.2.2.2

/-- C9, the code at the failing input: the fetch answers `{success: true, data:
{redirect_to: 'https://x'}}`. The page assigns `https://x` to `window.location.href`
and never sets `consentInfo`, but the `finally` block still sets `loading` to false
while `error` is empty, so the page renders the consent form (fallback title, no
scope rows, reject and approve buttons enabled). -/
theorem mount_redirect_renders_form :
    alreadyConsentedRun.href = some (JSValue.str "https://x") ∧
    alreadyConsentedRun.consentInfo = JSValue.null ∧
    alreadyConsentedRun.loading = false ∧
    alreadyConsentedRun.error = JSValue.str "" ∧
    alreadyConsentedRun.log = [Effect.get "/oauth/consent?consent_challenge=abc",
      Effect.navigate (JSValue.str "https://x"), Effect.setLoading false] ∧
    render id false alreadyConsentedRun = View.form (JSValue.str "第三方应用") [] false ∧
    (render id false alreadyConsentedRun).isForm = true := by
  refine ⟨rfl, rfl, rfl, rfl, rfl, rfl, rfl⟩

/-- C10. Ready path: for every response body that destructures to a truthy `success`
(in particular `true`) and a `data` whose `redirect_to` is absent (or otherwise
falsy), the continuation of the fetch, run from any state, sets `consentInfo` to
`data` itself and `loading` to false, and leaves `error` and `window.location.href`
alone; so `requested_scope` and `client_name` read from `consentInfo` are those of
`data`. Started at mount with a non-empty challenge, the page ends with `loading =
false`, the empty error, `consentInfo = data`, no navigation, and exactly the effects
fetch, `setConsentInfo(data)`, `setLoading(false)`. -/
theorem fetch_ready (t : String → String) (resData success message data redirectTo : JSValue)
    (hres : destructure resData = some (success, message, data))
    (hsuccess : success.truthy = true)
    (hdata : data.prop "redirect_to" = some redirectTo)
    (hno : redirectTo.truthy = false)
    (challenge : String) (hchallenge : challenge ≠ "") (st : State) :
    let st' := fetchConsentInfoResume t (ApiOutcome.resolved resData) st
    let final := mount t (some challenge) (ApiOutcome.resolved resData) State.initial
    (st'.loading = false ∧ st'.error = st.error ∧ st'.consentInfo = data ∧
      st'.href = st.href ∧
      st'.log = st.log ++ [Effect.setConsentInfo data, Effect.setLoading false] ∧
      st'.consentInfo.optProp "requested_scope" = data.optProp "requested_scope" ∧
      st'.consentInfo.optProp "client_name" = data.optProp "client_name") ∧
    (final.loading = false ∧ final.error = JSValue.str "" ∧ final.consentInfo = data ∧
      final.href = none ∧
      final.log = [Effect.get ("/oauth/consent?consent_challenge=" ++ challenge),
        Effect.setConsentInfo data, Effect.setLoading false]) := by
  intro st' final
  have key : ∀ s : State, fetchConsentInfoResume t (ApiOutcome.resolved resData) s
      = setLoading false (setConsentInfo data s) := by
    intro s
    simp only [fetchConsentInfoResume, hres, hsuccess, hdata, hno]
    rfl
  have hst : st' = setLoading false (setConsentInfo data st) := key st
  have hfinal : final = setLoading false (setConsentInfo data
      (apiGet ("/oauth/consent?consent_challenge=" ++ challenge) State.initial)) := by
    show mount t (some challenge) (ApiOutcome.resolved resData) State.initial = _
    simp only [mount, mountEffect, if_neg hchallenge]
    exact key _
  refine ⟨?_, ?_⟩
  · rw [hst]
    refine ⟨rfl, rfl, rfl, rfl, ?_, rfl, rfl⟩
    simp [setLoading, setConsentInfo]
  · rw [hfinal]
    refine ⟨rfl, rfl, rfl, rfl, ?_⟩
    simp [setLoading, setConsentInfo, apiGet, State.initial]

/-- Witness of C10: the response `consentPending` leaves the page with its `data` as
`consentInfo` and nothing assigned to `window.location.href`. -/
theorem fetch_ready_witness :
    (mount id (some "abc") (ApiOutcome.resolved consentPending) State.initial).consentInfo
      = JSValue.obj
          [("client_name", JSValue.str "Demo"),
           ("requested_scope",
              JSValue.arr [JSValue.str "openid", JSValue.str "unknown:scope"])] ∧
    (mount id (some "abc") (ApiOutcome.resolved consentPending) State.initial).href = none :=
  have h := (fetch_ready id consentPending (JSValue.bool true) (JSValue.str "")
    (JSValue.obj
      [("client_name", JSValue.str "Demo"),
       ("requested_scope",
          JSValue.arr [JSValue.str "openid", JSValue.str "unknown:scope"])])
    JSValue.undefined rfl rfl rfl rfl "abc" (by decide) State.initial).2
  ⟨h.2.2.1, h.2.2.2.1⟩

end OAuthConsent

namespace OAuthConsent

open OAuthTest

theorem or_of_truthy (a b : JSValue) (h : a.truthy = true) : a.or b = a := by
  simp [JSValue.or, h]

theorem or_of_falsy (a b : JSValue) (h : a.truthy = false) : a.or b = b := by
  simp [JSValue.or, h]

theorem render_error (t : String → String) (isEnglish : Bool) (st : State)
    (hl : st.loading = false) (he : st.error.truthy = true) :
    render t isEnglish st = View.error st.error := by
  simp [render, hl, he]

theorem fetchConsentInfoResume_ready (t : String → String)
    (resData success message data redirectTo : JSValue)
    (hres : destructure resData = some (success, message, data))
    (hsuccess : success.truthy = true)
    (hdata : data.prop "redirect_to" = some redirectTo)
    (hno : redirectTo.truthy = false) (st : State) :
    fetchConsentInfoResume t (ApiOutcome.resolved resData) st
      = setLoading false (setConsentInfo data st) := by
  simp only [fetchConsentInfoResume, hres, hsuccess, hdata, hno]
  rfl

theorem fetchConsentInfoResume_failure (t : String → String)
    (resData success message data : JSValue)
    (hres : destructure resData = some (success, message, data))
    (hfail : success.truthy = false) (st : State) :
    fetchConsentInfoResume t (ApiOutcome.resolved resData) st
      = setLoading false
          (setError (message.or (JSValue.str (t "获取授权信息失败"))) st) := by
  simp only [fetchConsentInfoResume, hres, hfail]
  rfl

/-- C11. Fetch failure: for every response body of the fetch whose `success` is falsy
(in particular `false`), the continuation, run from any state, ends with `loading =
false` and `error = message || t('获取授权信息失败')`, that is the provider's message
when it is truthy and the generic fallback otherwise; `consentInfo` is not set and
nothing is navigated to. When the fetch rejects, the error is the generic fallback.
When the translation of the fallback is non-empty the error is truthy in both cases
and the page renders the error card with it. -/
theorem fetch_failure (t : String → String) (ht : t "获取授权信息失败" ≠ "")
    (isEnglish : Bool) (resData success message data : JSValue)
    (hres : destructure resData = some (success, message, data))
    (hfail : success.truthy = false) (st : State) :
    ((fetchConsentInfoResume t (ApiOutcome.resolved resData) st).loading = false ∧
      (message.truthy = true →
        (fetchConsentInfoResume t (ApiOutcome.resolved resData) st).error = message) ∧
      (message.truthy = false →
        (fetchConsentInfoResume t (ApiOutcome.resolved resData) st).error
          = JSValue.str (t "获取授权信息失败")) ∧
      (fetchConsentInfoResume t (ApiOutcome.resolved resData) st).error.truthy = true ∧
      (fetchConsentInfoResume t (ApiOutcome.resolved resData) st).consentInfo
        = st.consentInfo ∧
      (fetchConsentInfoResume t (ApiOutcome.resolved resData) st).href = st.href ∧
      (fetchConsentInfoResume t (ApiOutcome.resolved resData) st).log
        = st.log ++ [Effect.setError (message.or (JSValue.str (t "获取授权信息失败"))),
            Effect.setLoading false] ∧
      render t isEnglish (fetchConsentInfoResume t (ApiOutcome.resolved resData) st)
        = View.error (message.or (JSValue.str (t "获取授权信息失败")))) ∧
    ((fetchConsentInfoResume t ApiOutcome.rejected st).loading = false ∧
      (fetchConsentInfoResume t ApiOutcome.rejected st).error
        = JSValue.str (t "获取授权信息失败") ∧
      (fetchConsentInfoResume t ApiOutcome.rejected st).consentInfo = st.consentInfo ∧
      (fetchConsentInfoResume t ApiOutcome.rejected st).href = st.href ∧
      (fetchConsentInfoResume t ApiOutcome.rejected st).log
        = st.log ++ [Effect.consoleError "Failed to fetch consent info:",
            Effect.setError (JSValue.str (t "获取授权信息失败")), Effect.setLoading false] ∧
      render t isEnglish (fetchConsentInfoResume t ApiOutcome.rejected st)
        = View.error (JSValue.str (t "获取授权信息失败"))) := by
  have hfb : (JSValue.str (t "获取授权信息失败")).truthy = true := truthy_str_of_ne_empty _ ht
  have htr : (message.or (JSValue.str (t "获取授权信息失败"))).truthy = true := by
    cases hm : message.truthy with
    | true => rw [or_of_truthy _ _ hm]; exact hm
    | false => rw [or_of_falsy _ _ hm]; exact hfb
  rw [fetchConsentInfoResume_failure t resData success message data hres hfail st]
  refine ⟨⟨rfl, ?_, ?_, htr, rfl, rfl, ?_, ?_⟩, rfl, rfl, rfl, rfl, ?_, ?_⟩
  · intro hm
    exact or_of_truthy _ _ hm
  · intro hm
    exact or_of_falsy _ _ hm
  · simp [setLoading, setError]
  · exact render_error t isEnglish _ rfl htr
  · simp [fetchConsentInfoResume, fetchConsentInfoCatch, setLoading, setError, consoleError]
  · exact render_error t isEnglish _ rfl hfb

/-- Witness of C11: the provider answers `{success: false, message: 'expired'}` and the
page shows the error card with that message. -/
theorem fetch_failure_witness :
    render id false
        (fetchConsentInfoResume id (ApiOutcome.resolved (failureBody "expired")) State.initial)
      = View.error (JSValue.or (JSValue.str "expired") (JSValue.str (id "获取授权信息失败"))) :=
  (fetch_failure id (by decide) false (failureBody "expired") (JSValue.bool false)
    (JSValue.str "expired") JSValue.undefined rfl rfl State.initial).1.2.2.2.2.2.2.2

end OAuthConsent

namespace OAuthConsent

open OAuthTest

theorem optProp_of_prop (v : JSValue) (name : String) (x : JSValue)
    (h : v.prop name = some x) : v.optProp name = x := by
  simp [JSValue.optProp, h]

theorem mount_ready (t : String → String)
    (resData success message data redirectTo : JSValue)
    (hres : destructure resData = some (success, message, data))
    (hsuccess : success.truthy = true)
    (hdata : data.prop "redirect_to" = some redirectTo)
    (hno : redirectTo.truthy = false)
    (challenge : String) (hchallenge : challenge ≠ "") :
    mount t (some challenge) (ApiOutcome.resolved resData) State.initial
      = setLoading false (setConsentInfo data
          (apiGet ("/oauth/consent?consent_challenge=" ++ challenge) State.initial)) := by
  simp only [mount, mountEffect, if_neg hchallenge]
  exact fetchConsentInfoResume_ready t resData success message data redirectTo hres hsuccess
    hdata hno _

/-- C12. All-or-nothing approval: in every state whose `consentInfo` carries the list
`requested_scope = L`, the approve action sets `submitting` and posts to
`/oauth/consent` the body `{consent_challenge: <the challenge>, grant_scope: L,
remember: true}`, with `L` itself: the same elements in the same order. In
particular, after a fetch that ended in the ready state with `data.requested_scope =
L`, the body of the approve request carries the list the provider returned. -/
theorem approve_submits_requested_scope (challenge : Option String) (L : List JSValue)
    (st : State) (hscope : st.consentInfo.prop "requested_scope" = some (JSValue.arr L))
    (t : String → String) (resData success message data redirectTo : JSValue)
    (hres : destructure resData = some (success, message, data))
    (hsuccess : success.truthy = true)
    (hdata : data.prop "redirect_to" = some redirectTo)
    (hno : redirectTo.truthy = false)
    (hlist : data.prop "requested_scope" = some (JSValue.arr L))
    (c : String) (hc : c ≠ "") :
    ((handleApproveBegin challenge st).log
        = st.log ++ [Effect.setSubmitting true,
            Effect.post "/oauth/consent"
              (JSValue.obj
                [("consent_challenge", challengeValue challenge),
                 ("grant_scope", JSValue.arr L),
                 ("remember", JSValue.bool true)])] ∧
      (handleApproveBegin challenge st).submitting = true ∧
      (handleApproveBegin challenge st).consentInfo = st.consentInfo) ∧
    (handleApproveBegin (some c)
        (mount t (some c) (ApiOutcome.resolved resData) State.initial)).log
      = [Effect.get ("/oauth/consent?consent_challenge=" ++ c),
          Effect.setConsentInfo data, Effect.setLoading false,
          Effect.setSubmitting true,
          Effect.post "/oauth/consent"
            (JSValue.obj
              [("consent_challenge", JSValue.str c),
               ("grant_scope", JSValue.arr L),
               ("remember", JSValue.bool true)])] := by
  have hor : ∀ v : JSValue, v.prop "requested_scope" = some (JSValue.arr L) →
      (v.optProp "requested_scope").or (JSValue.arr []) = JSValue.arr L := by
    intro v hv
    rw [optProp_of_prop v _ _ hv]
    exact or_of_truthy _ _ rfl
  refine ⟨⟨?_, rfl, rfl⟩, ?_⟩
  · have h := hor st.consentInfo hscope
    simp only [handleApproveBegin, apiPost, setSubmitting, List.append_assoc,
      List.singleton_append]
    rw [h]
  · rw [mount_ready t resData success message data redirectTo hres hsuccess hdata hno c hc]
    have h := hor data hlist
    simp only [handleApproveBegin, apiPost, setSubmitting, setLoading, setConsentInfo, apiGet,
      State.initial, challengeValue, List.append_assoc, List.singleton_append,
      List.nil_append]
    rw [h]
    rfl

/-- Witness of C12: after the fetch answered `consentPending`, approving posts the two
requested scopes, the unknown one included, in the order received. -/
theorem approve_submits_requested_scope_witness :
    (handleApproveBegin (some "abc") consentPendingRun).log
      = [Effect.get ("/oauth/consent?consent_challenge=" ++ "abc"),
          Effect.setConsentInfo
            (JSValue.obj
              [("client_name", JSValue.str "Demo"),
               ("requested_scope",
                  JSValue.arr [JSValue.str "openid", JSValue.str "unknown:scope"])]),
          Effect.setLoading false,
          Effect.setSubmitting true,
          Effect.post "/oauth/consent"
            (JSValue.obj
              [("consent_challenge", JSValue.str "abc"),
               ("grant_scope",
                  JSValue.arr [JSValue.str "openid", JSValue.str "unknown:scope"]),
               ("remember", JSValue.bool true)])] :=
  (approve_submits_requested_scope (some "abc")
    [JSValue.str "openid", JSValue.str "unknown:scope"] consentPendingRun rfl id
    consentPending (JSValue.bool true) (JSValue.str "")
    (JSValue.obj
      [("client_name", JSValue.str "Demo"),
       ("requested_scope",
          JSValue.arr [JSValue.str "openid", JSValue.str "unknown:scope"])])
    JSValue.undefined rfl rfl rfl rfl rfl "abc" (by decide)).2

/-- C13, the claim as stated fails: in the ready state reached from `consentPending`,
the reject action posts `{consent_challenge: 'abc'}`; the body has no `reason` field,
so a reason such as `'not now'` is not in it. -/
theorem reject_omits_reason_counterexample :
    (handleRejectBegin (some "abc") consentPendingRun).log
      = consentPendingRun.log ++ [Effect.setSubmitting true,
          Effect.post "/oauth/consent/reject"
            (JSValue.obj [("consent_challenge", JSValue.str "abc")])] ∧
    JSValue.field [("consent_challenge", JSValue.str "abc")] "reason" = JSValue.undefined ∧
    JSValue.field [("consent_challenge", JSValue.str "abc")] "reason"
      ≠ JSValue.str "not now" := by
  refine ⟨rfl, rfl, ?_⟩
  simp [JSValue.field]

/-- C13, amended. The reject action of the consent page takes no reason: in every
state it sets `submitting` and posts to `/oauth/consent/reject` the body
`{consent_challenge: <the challenge>}` alone, which has no `reason` field. The card
`POST /oauth/consent/reject` of the provider test panel is the path that carries the
reason: the request it hands to the transport has the body `{reason: rejectReason}`
and the challenge in its query string. -/
theorem reject_body (challenge : Option String) (st : State)
    (consentChallenge rejectReason key : String) (now : Int) (store : Store) :
    (handleRejectBegin challenge st).log
      = st.log ++ [Effect.setSubmitting true,
          Effect.post "/oauth/consent/reject"
            (JSValue.obj [("consent_challenge", challengeValue challenge)])] ∧
    JSValue.field [("consent_challenge", challengeValue challenge)] "reason"
      = JSValue.undefined ∧
    (OAuthProviderTest.makeRequestBegin key
        (OAuthProviderTest.postConsentRejectConfig consentChallenge rejectReason) now
        store).1.log
      = store.log ++ [OAuthTest.Effect.setLoading key true,
          OAuthTest.Effect.transport
            { config :=
                { method := "POST",
                  url := "/oauth/consent/reject?consent_challenge=" ++ consentChallenge,
                  data := JSValue.obj [("reason", JSValue.str rejectReason)] },
              authorization := none }] ∧
    JSValue.field [("reason", JSValue.str rejectReason)] "reason"
      = JSValue.str rejectReason := by
  refine ⟨?_, ?_, ?_, ?_⟩
  · simp [handleRejectBegin, apiPost, setSubmitting]
  · simp [JSValue.field]
  · simp [OAuthProviderTest.makeRequestBegin, OAuthProviderTest.postConsentRejectConfig,
      storeLoading, callTransport]
  · simp [JSValue.field]

end OAuthConsent

namespace OAuthConsent

open OAuthTest

theorem navigations_append (l l' : List Effect) :
    navigations (l ++ l') = navigations l ++ navigations l' := by
  induction l with
  | nil => rfl
  | cons e rest ih =>
    cases e <;> simp [navigations, ih]

theorem shownErrors_append (l l' : List Effect) :
    shownErrors (l ++ l') = shownErrors l ++ shownErrors l' := by
  induction l with
  | nil => rfl
  | cons e rest ih =>
    cases e <;> simp [shownErrors, ih]

theorem render_form_of_fields (t : String → String) (isEnglish : Bool) (st st' : State)
    (hl : st'.loading = st.loading) (he : st'.error = st.error)
    (hc : st'.consentInfo = st.consentInfo) (title : JSValue) (rows : List ScopeInfo)
    (busy : Bool) (h : render t isEnglish st = View.form title rows busy) :
    render t isEnglish st' = View.form title rows st'.submitting := by
  unfold render at h ⊢
  rw [hl, he, hc]
  by_cases h1 : st.loading = true
  · simp [h1] at h
  · by_cases h2 : st.error.truthy = true
    · simp [h1, h2] at h
    · simp only [h1, h2] at h ⊢
      simp only [Bool.false_eq_true, if_false] at h ⊢
      split at h
      · simp_all
      · simp_all
      · rename_i items heq
        cases hrows : scopeRows isEnglish items with
        | none => simp [hrows] at h
        | some rs =>
          simp only [hrows] at h ⊢
          by_cases hall : rs.all rowRenders = true
          · simp only [hall, if_true] at h ⊢
            injection h with h1 h2 h3
            rw [h1, h2]
          · simp [hall] at h
      · simp at h

end OAuthConsent

namespace OAuthConsent

open OAuthTest

theorem submitResume_redirect (label failed retry : String) (t : String → String)
    (resData success message data u : JSValue)
    (hres : destructure resData = some (success, message, data))
    (hsuccess : success.truthy = true)
    (hdata : data.prop "redirect_to" = some u) (hu : u.truthy = true) (st : State) :
    submitResume label failed retry t (ApiOutcome.resolved resData) st
      = setSubmitting false (navigate u st) := by
  simp only [submitResume, hres, hsuccess, hdata, hu]
  rfl

theorem submitResume_failed (label failed retry : String) (t : String → String)
    (resData success message data : JSValue)
    (hres : destructure resData = some (success, message, data))
    (hfail : success.truthy = false) (st : State) :
    submitResume label failed retry t (ApiOutcome.resolved resData) st
      = setSubmitting false (showError (message.or (JSValue.str (t failed))) st) := by
  simp only [submitResume, hres, hfail]
  rfl

theorem submitResume_no_redirect (label failed retry : String) (t : String → String)
    (resData success message data r : JSValue)
    (hres : destructure resData = some (success, message, data))
    (hsuccess : success.truthy = true)
    (hdata : data.prop "redirect_to" = some r) (hr : r.truthy = false) (st : State) :
    submitResume label failed retry t (ApiOutcome.resolved resData) st
      = setSubmitting false (showError (message.or (JSValue.str (t failed))) st) := by
  simp only [submitResume, hres, hsuccess, hdata, hr]
  rfl

theorem submitResume_no_data (label failed retry : String) (t : String → String)
    (resData success message data : JSValue)
    (hres : destructure resData = some (success, message, data))
    (hsuccess : success.truthy = true)
    (hdata : data.prop "redirect_to" = none) (st : State) :
    submitResume label failed retry t (ApiOutcome.resolved resData) st
      = setSubmitting false (showError (JSValue.str (t retry)) (consoleError label st)) := by
  simp only [submitResume, hres, hsuccess, hdata]
  rfl

theorem log_navigate (u : JSValue) (st : State) :
    (setSubmitting false (navigate u st)).log
      = st.log ++ [Effect.navigate u, Effect.setSubmitting false] := by
  simp [setSubmitting, navigate]

theorem log_showError (m : JSValue) (st : State) :
    (setSubmitting false (showError m st)).log
      = st.log ++ [Effect.showError m, Effect.setSubmitting false] := by
  simp [setSubmitting, showError]

theorem softFailure_showError (t : String → String) (m : JSValue) (st : State) :
    SoftFailure t st (setSubmitting false (showError m st)) m := by
  refine ⟨rfl, ?_, ?_, rfl, rfl, rfl, rfl, ?_⟩
  · rw [log_showError, navigations_append]
    simp [navigations]
  · rw [log_showError, shownErrors_append]
    simp [shownErrors]
  · intro isEnglish title rows busy h
    exact render_form_of_fields t isEnglish st (setSubmitting false (showError m st))
      rfl rfl rfl title rows busy h

theorem softFailure_caught (t : String → String) (label : String) (m : JSValue) (st : State) :
    SoftFailure t st (setSubmitting false (showError m (consoleError label st))) m := by
  refine ⟨rfl, ?_, ?_, rfl, rfl, rfl, rfl, ?_⟩
  · rw [log_showError, navigations_append]
    show navigations (st.log ++ [Effect.consoleError label]) ++ _ = _
    rw [navigations_append]
    simp [navigations]
  · rw [log_showError, shownErrors_append]
    show shownErrors (st.log ++ [Effect.consoleError label]) ++ _ = _
    rw [shownErrors_append]
    simp [shownErrors]
  · intro isEnglish title rows busy h
    exact render_form_of_fields t isEnglish st
      (setSubmitting false (showError m (consoleError label st))) rfl rfl rfl title rows busy h

/-- Every run of the shared continuation either navigates, on a response with a truthy
`success` and a truthy `data.redirect_to`, or leaves the navigations as they were. -/
theorem submitResume_navigates_only_on_redirect (label failed retry : String)
    (t : String → String) (outcome : ApiOutcome) (st : State)
    (h : navigations (submitResume label failed retry t outcome st).log
      ≠ navigations st.log) :
    ∃ resData success message data u,
      outcome = ApiOutcome.resolved resData ∧
      destructure resData = some (success, message, data) ∧
      success.truthy = true ∧ data.prop "redirect_to" = some u ∧ u.truthy = true ∧
      (submitResume label failed retry t outcome st).href = some u := by
  cases outcome with
  | rejected =>
    exact absurd (softFailure_caught t label _ st).2.1 h
  | resolved resData =>
    cases hres : destructure resData with
    | none =>
      have e : submitResume label failed retry t (ApiOutcome.resolved resData) st
          = setSubmitting false (showError (JSValue.str (t retry)) (consoleError label st)) := by
        simp only [submitResume, hres]
      rw [e] at h
      exact absurd (softFailure_caught t label _ st).2.1 h
    | some triple =>
      obtain ⟨success, message, data⟩ := triple
      cases hs : success.truthy with
      | false =>
        rw [submitResume_failed label failed retry t resData success message data hres hs st]
          at h
        exact absurd (softFailure_showError t _ st).2.1 h
      | true =>
        cases hd : data.prop "redirect_to" with
        | none =>
          have e : submitResume label failed retry t (ApiOutcome.resolved resData) st
              = setSubmitting false
                  (showError (JSValue.str (t retry)) (consoleError label st)) := by
            simp only [submitResume, hres, hs, hd]
            rfl
          rw [e] at h
          exact absurd (softFailure_caught t label _ st).2.1 h
        | some u =>
          cases hu : u.truthy with
          | false =>
            rw [submitResume_no_redirect label failed retry t resData success message data u
              hres hs hd hu st] at h
            exact absurd (softFailure_showError t _ st).2.1 h
          | true =>
            refine ⟨resData, success, message, data, u, rfl, hres, hs, hd, hu, ?_⟩
            rw [submitResume_redirect label failed retry t resData success message data u
              hres hs hd hu st]
            rfl

end OAuthConsent

namespace OAuthConsent

open OAuthTest

/-- C14. Terminal redirect on submission: for approve and for reject, and for every
non-empty URL `u`, a submission response with a truthy `success` (in particular
`true`) and `data.redirect_to = u` makes the continuation assign exactly `u` to
`window.location.href`, as its only navigation, give nothing to `showError` and leave
the `error` field alone; its effects are that assignment and `setSubmitting(false)`.
Conversely, for every way a submission can settle, if the continuation navigates then
the response had a truthy `success` and a truthy `data.redirect_to`, and that value
is where it navigated. -/
theorem submit_redirect (t : String → String) (u : String) (hu : u ≠ "")
    (resData success message data : JSValue)
    (hres : destructure resData = some (success, message, data))
    (hsuccess : success.truthy = true)
    (hdata : data.prop "redirect_to" = some (JSValue.str u))
    (outcome : ApiOutcome) (st : State) :
    ((handleApproveResume t (ApiOutcome.resolved resData) st).href = some (JSValue.str u) ∧
      (handleApproveResume t (ApiOutcome.resolved resData) st).log
        = st.log ++ [Effect.navigate (JSValue.str u), Effect.setSubmitting false] ∧
      navigations (handleApproveResume t (ApiOutcome.resolved resData) st).log
        = navigations st.log ++ [JSValue.str u] ∧
      shownErrors (handleApproveResume t (ApiOutcome.resolved resData) st).log
        = shownErrors st.log ∧
      (handleApproveResume t (ApiOutcome.resolved resData) st).error = st.error) ∧
    ((handleRejectResume t (ApiOutcome.resolved resData) st).href = some (JSValue.str u) ∧
      (handleRejectResume t (ApiOutcome.resolved resData) st).log
        = st.log ++ [Effect.navigate (JSValue.str u), Effect.setSubmitting false] ∧
      navigations (handleRejectResume t (ApiOutcome.resolved resData) st).log
        = navigations st.log ++ [JSValue.str u] ∧
      shownErrors (handleRejectResume t (ApiOutcome.resolved resData) st).log
        = shownErrors st.log ∧
      (handleRejectResume t (ApiOutcome.resolved resData) st).error = st.error) ∧
    (navigations (handleApproveResume t outcome st).log ≠ navigations st.log →
      ∃ body s m d r, outcome = ApiOutcome.resolved body ∧
        destructure body = some (s, m, d) ∧ s.truthy = true ∧
        d.prop "redirect_to" = some r ∧ r.truthy = true ∧
        (handleApproveResume t outcome st).href = some r) ∧
    (navigations (handleRejectResume t outcome st).log ≠ navigations st.log →
      ∃ body s m d r, outcome = ApiOutcome.resolved body ∧
        destructure body = some (s, m, d) ∧ s.truthy = true ∧
        d.prop "redirect_to" = some r ∧ r.truthy = true ∧
        (handleRejectResume t outcome st).href = some r) := by
  have hut : (JSValue.str u).truthy = true := truthy_str_of_ne_empty u hu
  have key : ∀ label failed retry : String,
      let st' := submitResume label failed retry t (ApiOutcome.resolved resData) st
      st'.href = some (JSValue.str u) ∧
      st'.log = st.log ++ [Effect.navigate (JSValue.str u), Effect.setSubmitting false] ∧
      navigations st'.log = navigations st.log ++ [JSValue.str u] ∧
      shownErrors st'.log = shownErrors st.log ∧
      st'.error = st.error := by
    intro label failed retry
    simp only
    rw [submitResume_redirect label failed retry t resData success message data _ hres
      hsuccess hdata hut st]
    refine ⟨rfl, log_navigate _ st, ?_, ?_, rfl⟩
    · rw [log_navigate, navigations_append]
      simp [navigations]
    · rw [log_navigate, shownErrors_append]
      simp [shownErrors]
  exact ⟨key _ _ _, key _ _ _,
    submitResume_navigates_only_on_redirect _ _ _ t outcome st,
    submitResume_navigates_only_on_redirect _ _ _ t outcome st⟩

/-- Witness of C14: approving, with the submission answered by `{success: true, data:
{redirect_to: 'https://y'}}`, navigates to `https://y`. -/
theorem submit_redirect_witness :
    (handleApproveResume id (ApiOutcome.resolved (redirectBody "https://y"))
        (handleApproveBegin (some "abc") consentPendingRun)).href
      = some (JSValue.str "https://y") :=
  (submit_redirect id "https://y" (by decide) (redirectBody "https://y") (JSValue.bool true)
    (JSValue.str "") (JSValue.obj [("redirect_to", JSValue.str "https://y")]) rfl rfl rfl
    ApiOutcome.rejected (handleApproveBegin (some "abc") consentPendingRun)).1.1

/-- C15, the claim as stated fails: the approve submission is answered `{success: true,
message: 'done'}`, a success without `redirect_to` whose message is supplied. Reading
`data.redirect_to` throws, and the one message shown is the retry text of the `catch`
block, not the provider's message. -/
theorem submit_success_without_data_counterexample :
    destructure (successNoData "done")
      = some (JSValue.bool true, JSValue.str "done", JSValue.undefined) ∧
    shownErrors (handleApproveResume id (ApiOutcome.resolved (successNoData "done"))
        approvePressed).log
      = [JSValue.str "授权失败，请重试"] ∧
    JSValue.str "授权失败，请重试" ≠ JSValue.str "done" := by
  refine ⟨rfl, rfl, ?_⟩
  intro h
  injection h with h
  exact absurd h (by decide)

/-- C15, amended. Soft failure returns to the ready state: for approve and for reject,
when the submission response has a falsy `success`, or a truthy `success` and a `data`
object whose `redirect_to` is absent or falsy, the continuation fails softly with the
one message `message || t(<fallback>)` (the provider's message when it is truthy, else
the fallback); when `success` is truthy and `data` is `undefined` or `null`, or when
the transport throws, it fails softly with the one message `t(<retry text>)` of the
`catch` block, whatever message the response carried. Failing softly is `SoftFailure`:
no navigation, exactly one message given to `showError`, `submitting` false again,
`loading`, `error` and `consentInfo` untouched, and a page that showed the consent
form still shows it and not the error card. -/
theorem submit_soft_failure (t : String → String) (st : State)
    (resData success message data : JSValue)
    (hres : destructure resData = some (success, message, data)) :
    (success.truthy = false →
      SoftFailure t st (handleApproveResume t (ApiOutcome.resolved resData) st)
        (message.or (JSValue.str (t "授权失败"))) ∧
      SoftFailure t st (handleRejectResume t (ApiOutcome.resolved resData) st)
        (message.or (JSValue.str (t "操作失败")))) ∧
    (∀ r : JSValue, success.truthy = true → data.prop "redirect_to" = some r →
      r.truthy = false →
      SoftFailure t st (handleApproveResume t (ApiOutcome.resolved resData) st)
        (message.or (JSValue.str (t "授权失败"))) ∧
      SoftFailure t st (handleRejectResume t (ApiOutcome.resolved resData) st)
        (message.or (JSValue.str (t "操作失败")))) ∧
    (success.truthy = true → data.prop "redirect_to" = none →
      SoftFailure t st (handleApproveResume t (ApiOutcome.resolved resData) st)
        (JSValue.str (t "授权失败，请重试")) ∧
      SoftFailure t st (handleRejectResume t (ApiOutcome.resolved resData) st)
        (JSValue.str (t "操作失败，请重试"))) ∧
    SoftFailure t st (handleApproveResume t ApiOutcome.rejected st)
      (JSValue.str (t "授权失败，请重试")) ∧
    SoftFailure t st (handleRejectResume t ApiOutcome.rejected st)
      (JSValue.str (t "操作失败，请重试")) ∧
    (∀ fallback : JSValue,
      (message.truthy = true → message.or fallback = message) ∧
      (message.truthy = false → message.or fallback = fallback)) := by
  refine ⟨?_, ?_, ?_, softFailure_caught t _ _ st, softFailure_caught t _ _ st, ?_⟩
  · intro hfail
    constructor
    · show SoftFailure t st (submitResume _ _ _ t _ st) _
      rw [submitResume_failed _ _ _ t resData success message data hres hfail st]
      exact softFailure_showError t _ st
    · show SoftFailure t st (submitResume _ _ _ t _ st) _
      rw [submitResume_failed _ _ _ t resData success message data hres hfail st]
      exact softFailure_showError t _ st
  · intro r hs hd hr
    constructor
    · show SoftFailure t st (submitResume _ _ _ t _ st) _
      rw [submitResume_no_redirect _ _ _ t resData success message data r hres hs hd hr st]
      exact softFailure_showError t _ st
    · show SoftFailure t st (submitResume _ _ _ t _ st) _
      rw [submitResume_no_redirect _ _ _ t resData success message data r hres hs hd hr st]
      exact softFailure_showError t _ st
  · intro hs hd
    constructor
    · show SoftFailure t st (submitResume _ _ _ t _ st) _
      rw [submitResume_no_data _ _ _ t resData success message data hres hs hd st]
      exact softFailure_caught t _ _ st
    · show SoftFailure t st (submitResume _ _ _ t _ st) _
      rw [submitResume_no_data _ _ _ t resData success message data hres hs hd st]
      exact softFailure_caught t _ _ st
  · intro fallback
    exact ⟨or_of_truthy _ _, or_of_falsy _ _⟩

/-- Witness of C15: the reject submission is answered `{success: false, message:
'denied'}`; the page fails softly with that message. -/
theorem submit_soft_failure_witness :
    SoftFailure id rejectPressed
      (handleRejectResume id (ApiOutcome.resolved (failureBody "denied")) rejectPressed)
      (JSValue.or (JSValue.str "denied") (JSValue.str (id "操作失败"))) :=
  ((submit_soft_failure id rejectPressed (failureBody "denied") (JSValue.bool false)
    (JSValue.str "denied") JSValue.undefined rfl).1 rfl).2

end OAuthConsent

namespace OAuthConsent

open OAuthTest

theorem renderable_str (s : String) : (JSValue.str s).renderable = true := by
  simp [JSValue.renderable]

/-- For a string that is neither one of the seven own keys of the table nor a name
inherited from `Object.prototype`, in either locale, `getScopeInfo` returns the
fallback: `name` and `desc` are the raw identifier. -/
theorem getScopeInfo_fallback (isEnglish : Bool) (s : String)
    (hown : s ∉ ["openid", "profile", "email", "balance:read", "usage:read", "tokens:read",
      "tokens:write"])
    (hinherited : s ∉ inheritedNames) :
    getScopeInfo isEnglish (JSValue.str s)
      = some { name := JSValue.str s, desc := JSValue.str s, Icon := some "IconTickCircle",
               color := some "text-gray-500" } := by
  have hread : JSObj.read SCOPE_DESCRIPTIONS s = none := by
    apply JSObj.read_eq_none_of_not_has
    simp only [List.mem_cons, List.mem_singleton, List.not_mem_nil, or_false, not_or] at hown
    obtain ⟨h1, h2, h3, h4, h5, h6, h7⟩ := hown
    simp [JSObj.has, SCOPE_DESCRIPTIONS, Ne.symm h1, Ne.symm h2, Ne.symm h3, Ne.symm h4,
      Ne.symm h5, Ne.symm h6, Ne.symm h7]
  have hproto : JSObj.read objectPrototype s = none := by
    apply JSObj.read_eq_none_of_not_has
    simp only [inheritedNames, objectPrototype, List.map_cons, List.map_nil, List.mem_cons,
      List.mem_singleton, List.not_mem_nil, or_false, not_or] at hinherited
    obtain ⟨h1, h2, h3, h4, h5, h6, h7, h8, h9, h10, h11, h12⟩ := hinherited
    simp [JSObj.has, objectPrototype, Ne.symm h1, Ne.symm h2, Ne.symm h3, Ne.symm h4,
      Ne.symm h5, Ne.symm h6, Ne.symm h7, Ne.symm h8, Ne.symm h9, Ne.symm h10,
      Ne.symm h11, Ne.symm h12]
  simp only [getScopeInfo, JSValue.toPropertyKey, hread, hproto]

/-- For a string that is not a name inherited from `Object.prototype`, `getScopeInfo`
returns a row that React can render. -/
theorem getScopeInfo_renders (isEnglish : Bool) (s : String)
    (hinherited : s ∉ inheritedNames) :
    ∃ row, getScopeInfo isEnglish (JSValue.str s) = some row ∧ rowRenders row = true := by
  have hproto : JSObj.read objectPrototype s = none := by
    apply JSObj.read_eq_none_of_not_has
    simp only [inheritedNames, objectPrototype, List.map_cons, List.map_nil, List.mem_cons,
      List.mem_singleton, List.not_mem_nil, or_false, not_or] at hinherited
    obtain ⟨h1, h2, h3, h4, h5, h6, h7, h8, h9, h10, h11, h12⟩ := hinherited
    simp [JSObj.has, objectPrototype, Ne.symm h1, Ne.symm h2, Ne.symm h3, Ne.symm h4,
      Ne.symm h5, Ne.symm h6, Ne.symm h7, Ne.symm h8, Ne.symm h9, Ne.symm h10,
      Ne.symm h11, Ne.symm h12]
  cases hread : JSObj.read SCOPE_DESCRIPTIONS s with
  | some info =>
    refine ⟨{ name := JSValue.str (if isEnglish then info.nameEn else info.name),
              desc := JSValue.str (if isEnglish then info.descEn else info.desc),
              Icon := some info.icon, color := some info.color }, ?_, ?_⟩
    · simp only [getScopeInfo, JSValue.toPropertyKey, hread]
    · simp [rowRenders, renderable_str]
  | none =>
    refine ⟨{ name := JSValue.str s, desc := JSValue.str s, Icon := some "IconTickCircle",
              color := some "text-gray-500" }, ?_, ?_⟩
    · simp only [getScopeInfo, JSValue.toPropertyKey, hread, hproto]
    · simp [rowRenders, renderable_str]

/-- For a list of scope strings none of which is a name inherited from
`Object.prototype`, the rows are computed without an error, every row can be
rendered, and the rows are `getScopeInfo` of the elements, one per element and in the
same order. -/
theorem scopeRows_of_plain_names (isEnglish : Bool) (scopes : List String)
    (hplain : ∀ s ∈ scopes, s ∉ inheritedNames) :
    ∃ rows, scopeRows isEnglish (scopes.map JSValue.str) = some rows ∧
      rows.all rowRenders = true ∧
      rows.map some = scopes.map (fun s => getScopeInfo isEnglish (JSValue.str s)) := by
  induction scopes with
  | nil => exact ⟨[], rfl, rfl, rfl⟩
  | cons s rest ih =>
    obtain ⟨rows, hrows, hall, hmap⟩ := ih (fun x hx => hplain x (List.mem_cons_of_mem _ hx))
    obtain ⟨row, hrow, hrenders⟩ := getScopeInfo_renders isEnglish s
      (hplain s (List.mem_cons_self _ _))
    refine ⟨row :: rows, ?_, ?_, ?_⟩
    · simp only [List.map_cons, scopeRows, hrow, hrows]
    · simp only [List.all_cons, hrenders, hall, Bool.and_self]
    · simp only [List.map_cons, hrow, hmap]

/-- In a state that renders the consent form (`loading` false, `error` falsy) and
whose `consentInfo.requested_scope` is a list of scope strings none of which is a
name inherited from `Object.prototype`, the rendered rows are `getScopeInfo` of the
elements, one row per element and in the same order. -/
theorem render_rows_of_plain_names (t : String → String) (isEnglish : Bool) (st : State)
    (scopes : List String) (hl : st.loading = false) (he : st.error.truthy = false)
    (hscope : st.consentInfo.prop "requested_scope"
      = some (JSValue.arr (scopes.map JSValue.str)))
    (hplain : ∀ s ∈ scopes, s ∉ inheritedNames) :
    ∃ rows, render t isEnglish st
        = View.form ((st.consentInfo.optProp "client_name").or (JSValue.str (t "第三方应用")))
            rows st.submitting ∧
      rows.length = scopes.length ∧
      rows.map some = scopes.map (fun s => getScopeInfo isEnglish (JSValue.str s)) := by
  obtain ⟨rows, hrows, hall, hmap⟩ := scopeRows_of_plain_names isEnglish scopes hplain
  refine ⟨rows, ?_, ?_, hmap⟩
  · have h := optProp_of_prop _ _ _ hscope
    simp only [render, hl, he, h, hrows, hall]
    rfl
  · have hlen := congrArg List.length hmap
    simpa using hlen

/-- C16, the code at the failing input: `constructor` is a string that is none of the
seven keys of `SCOPE_DESCRIPTIONS`, yet the lookup `SCOPE_DESCRIPTIONS['constructor']`
finds the inherited function `Object`, which is truthy. So `getScopeInfo` does not
return the fallback: in the Chinese locale `name` is `'Object'`, in the English
locale it is `undefined`, and `desc`, `Icon` and `color` are `undefined` in both. -/
theorem getScopeInfo_constructor :
    "constructor" ∉ SCOPE_DESCRIPTIONS.map Prod.fst ∧
    getScopeInfo false (JSValue.str "constructor")
      = some { name := JSValue.str "Object", desc := JSValue.undefined, Icon := none,
               color := none } ∧
    getScopeInfo true (JSValue.str "constructor")
      = some { name := JSValue.undefined, desc := JSValue.undefined, Icon := none,
               color := none } ∧
    JSValue.str "Object" ≠ JSValue.str "constructor" ∧
    JSValue.undefined ≠ JSValue.str "constructor" := by
  refine ⟨by decide, rfl, rfl, ?_, ?_⟩
  · intro h
    injection h with h
    exact absurd h (by decide)
  · intro h
    exact JSValue.noConfusion h

/-- C17, the code at the failing input: the fetch answers with `requested_scope:
['openid', 'constructor']` and no `redirect_to`, so the page is in the ready state
(`loading` false, `error` empty, `consentInfo` set). The row for `constructor` has
an `undefined` `Icon`, and rendering the scope list throws, in either locale: no row
is shown, not even the one for `openid`. For `['openid', 'unknown:scope']` the form
does have two rows, and the second shows the raw identifier. -/
theorem render_inherited_scope_throws (isEnglish : Bool) :
    inheritedScopeRun.loading = false ∧
    inheritedScopeRun.error = JSValue.str "" ∧
    inheritedScopeRun.consentInfo.optProp "requested_scope"
      = JSValue.arr [JSValue.str "openid", JSValue.str "constructor"] ∧
    render id isEnglish inheritedScopeRun = View.threw ∧
    ∃ first, getScopeInfo isEnglish (JSValue.str "openid") = some first ∧
      render id isEnglish consentPendingRun
        = View.form (JSValue.str "Demo")
            [first,
             { name := JSValue.str "unknown:scope", desc := JSValue.str "unknown:scope",
               Icon := some "IconTickCircle", color := some "text-gray-500" }] false := by
  refine ⟨rfl, rfl, rfl, ?_, ?_⟩
  · cases isEnglish <;> rfl
  · cases isEnglish
    · exact ⟨_, rfl, rfl⟩
    · exact ⟨_, rfl, rfl⟩

end OAuthConsent

/-! ## Interleaved calls: theorems -/

namespace OAuthTest

theorem makeRequestResume_eq (p : Pending) (outcome : Outcome) (now : Int) (st : Store) :
    makeRequestResume p outcome now st
      = storeLoading p.key false (storeResult p.key (settledResult p outcome now) st) := by
  cases outcome <;> rfl

theorem makeRequestResume_read (p : Pending) (outcome : Outcome) (now : Int) (st : Store) :
    (makeRequestResume p outcome now st).results.read p.key
      = some (settledResult p outcome now) := by
  rw [makeRequestResume_eq]
  exact JSObj.read_assign_self _ _ _

theorem run_append (panel : Panel) (a b : List Event) (s : Session) :
    run panel (a ++ b) s = run panel b (run panel a s) := by
  simp [run, List.foldl_append]

theorem run_cons (panel : Panel) (e : Event) (rest : List Event) (s : Session) :
    run panel (e :: rest) s = run panel rest (step panel s e) := rfl

theorem step_settle_of_mem (panel : Panel) (s : Session) (p : Pending) (outcome : Outcome)
    (now : Int) (hp : p ∈ s.pending) :
    step panel s (Event.settle p outcome now)
      = { store := makeRequestResume p outcome now s.store,
          pending := s.pending.erase p } := by
  simp only [step, if_pos hp]

theorem step_settle_of_not_mem (panel : Panel) (s : Session) (p : Pending)
    (outcome : Outcome) (now : Int) (hp : p ∉ s.pending) :
    step panel s (Event.settle p outcome now) = s := by
  simp only [step, if_neg hp]

theorem step_read_of_not_writes (panel : Panel) (k : String) (s : Session) (e : Event)
    (h : e.writesResult panel k = false) :
    (step panel s e).store.results.read k = s.store.results.read k := by
  cases e with
  | start bearerToken key config now =>
    cases panel with
    | provider => rfl
    | api =>
      show (OAuthAPITest.makeRequestBegin bearerToken key config now s.store).1.results.read k
        = _
      unfold OAuthAPITest.makeRequestBegin
      by_cases htok : bearerToken = ""
      · have hk : key ≠ k := by
          intro hk
          simp [Event.writesResult, htok, hk] at h
        rw [if_pos htok]
        exact JSObj.read_assign_of_ne _ key k _ (fun h' => hk h'.symm)
      · rw [if_neg htok]
        rfl
  | settle p outcome now =>
    have hk : p.key ≠ k := by
      intro hk
      simp [Event.writesResult, hk] at h
    by_cases hp : p ∈ s.pending
    · rw [step_settle_of_mem panel s p outcome now hp]
      exact (makeRequestResume_sameAt p.key k hk p.startTime now outcome s.store).1
    · rw [step_settle_of_not_mem panel s p outcome now hp]
  | clear key =>
    have hk : key ≠ k := by
      intro hk
      simp [Event.writesResult, hk] at h
    exact JSObj.read_remove_of_ne _ key k (fun h' => hk h'.symm)

theorem run_read_of_not_writes (panel : Panel) (k : String) (events : List Event)
    (h : ∀ e ∈ events, e.writesResult panel k = false) (s : Session) :
    (run panel events s).store.results.read k = s.store.results.read k := by
  induction events generalizing s with
  | nil => rfl
  | cons e rest ih =>
    rw [run_cons, ih (fun e' he' => h e' (List.mem_cons_of_mem _ he'))]
    exact step_read_of_not_writes panel k s e (h e (List.mem_cons_self _ _))

end OAuthTest

namespace OAuthTest

/-- C18. Last write wins on one key: take any sequence of events of a panel (starts,
settlements and clears, in any interleaving and any start order), then the
settlement of a call for `k` that is suspended at that point, then further events
none of which ends a call for `k` or clears `k`. The result stored for `k` at the end
is the result of that last settlement. The same holds when the call that ends last
is one that stops at the guard of the API panel: the stored result is then the
guard's. -/
theorem last_write_wins (panel : Panel) (events rest : List Event) (p : Pending)
    (outcome : Outcome) (now : Int) (s0 : Session)
    (hp : p ∈ (run panel events s0).pending)
    (hrest : ∀ e ∈ rest, e.writesResult panel p.key = false)
    (k : String) (config : RequestConfig)
    (hguard : ∀ e ∈ rest, e.writesResult Panel.api k = false) :
    (run panel (events ++ Event.settle p outcome now :: rest) s0).store.results.read p.key
      = some (settledResult p outcome now) ∧
    (run Panel.api (events ++ Event.start "" k config now :: rest) s0).store.results.read k
      = some guardResult := by
  constructor
  · rw [run_append, run_cons, run_read_of_not_writes panel p.key rest hrest,
      step_settle_of_mem panel _ p outcome now hp]
    exact makeRequestResume_read p outcome now _
  · rw [run_append, run_cons, run_read_of_not_writes Panel.api k rest hguard]
    exact JSObj.read_assign_self _ k guardResult

/-- Witness of C18: of two calls under `getLogout`, the one started first settles last
(status 500 at clock reading 9) and its result is the one stored. -/
theorem last_write_wins_witness :
    (run Panel.provider
        (twoCalls ++ [Event.settle { key := "getLogout", startTime := 0 }
          (Outcome.resolved { status := 500, data := JSValue.num 1 }) 9])
        Session.initial).store.results.read "getLogout"
      = some (settledResult { key := "getLogout", startTime := 0 }
          (Outcome.resolved { status := 500, data := JSValue.num 1 }) 9) :=
  (last_write_wins Panel.provider twoCalls [] { key := "getLogout", startTime := 0 }
    (Outcome.resolved { status := 500, data := JSValue.num 1 }) 9 Session.initial
    (by decide) (by simp) "getLogout" { method := "GET", url := "/oauth/logout" }
    (by simp)).1

/-- C19. Clearing does not cancel: `clearResult(k)` called while a call for `k` is
suspended leaves the whole loading map as it was and the call suspended; the result
for `k` is gone. Whatever events follow, as long as that call is still suspended
after them, its settlement stores its result under `k` and resets `loading[k]`. -/
theorem clear_does_not_cancel (panel : Panel) (s : Session) (p : Pending)
    (hp : p ∈ s.pending) (mid : List Event)
    (hmid : p ∈ (run panel mid (step panel s (Event.clear p.key))).pending)
    (outcome : Outcome) (now : Int) :
    (step panel s (Event.clear p.key)).store.loading = s.store.loading ∧
    (step panel s (Event.clear p.key)).pending = s.pending ∧
    p ∈ (step panel s (Event.clear p.key)).pending ∧
    (step panel s (Event.clear p.key)).store.results.read p.key = none ∧
    (run panel (Event.clear p.key :: mid ++ [Event.settle p outcome now]) s).store.results.read
        p.key
      = some (settledResult p outcome now) ∧
    (run panel (Event.clear p.key :: mid ++ [Event.settle p outcome now]) s).store.loading.read
        p.key
      = some false := by
  have hrun : run panel (Event.clear p.key :: mid ++ [Event.settle p outcome now]) s
      = { store := makeRequestResume p outcome now
            (run panel mid (step panel s (Event.clear p.key))).store,
          pending := (run panel mid (step panel s (Event.clear p.key))).pending.erase p } := by
    rw [List.cons_append, run_cons, run_append, run_cons]
    show step panel (run panel mid (step panel s (Event.clear p.key)))
      (Event.settle p outcome now) = _
    exact step_settle_of_mem panel _ p outcome now hmid
  refine ⟨rfl, rfl, hp, JSObj.read_remove_self _ _, ?_, ?_⟩
  · rw [hrun]
    exact makeRequestResume_read p outcome now _
  · rw [hrun, makeRequestResume_eq]
    exact JSObj.read_assign_self _ _ _

/-- Witness of C19: the one suspended call under `getLogout` is cleared and then
settles with status 200; its result is stored. -/
theorem clear_does_not_cancel_witness :
    (run Panel.provider
        (Event.clear "getLogout" :: [] ++ [Event.settle { key := "getLogout", startTime := 0 }
          (Outcome.resolved { status := 200, data := JSValue.num 2 }) 5])
        oneCall).store.results.read "getLogout"
      = some (settledResult { key := "getLogout", startTime := 0 }
          (Outcome.resolved { status := 200, data := JSValue.num 2 }) 5) :=
  (clear_does_not_cancel Panel.provider oneCall { key := "getLogout", startTime := 0 }
    (by decide) [] (by decide)
    (Outcome.resolved { status := 200, data := JSValue.num 2 }) 5).2.2.2.2.1

end OAuthTest

/-! ## The page over time: theorems -/

namespace OAuthConsent

open OAuthTest

theorem submitResume_fields (label failed retry : String) (t : String → String)
    (outcome : ApiOutcome) (st : State) :
    (submitResume label failed retry t outcome st).loading = st.loading ∧
    (submitResume label failed retry t outcome st).error = st.error ∧
    (submitResume label failed retry t outcome st).consentInfo = st.consentInfo := by
  cases outcome with
  | rejected => exact ⟨rfl, rfl, rfl⟩
  | resolved resData =>
    cases hres : destructure resData with
    | none =>
      simp only [submitResume, hres]
      exact ⟨rfl, rfl, rfl⟩
    | some triple =>
      obtain ⟨success, message, data⟩ := triple
      cases hs : success.truthy with
      | false =>
        rw [submitResume_failed label failed retry t resData success message data hres hs st]
        exact ⟨rfl, rfl, rfl⟩
      | true =>
        cases hd : data.prop "redirect_to" with
        | none =>
          simp only [submitResume, hres, hs, hd]
          exact ⟨rfl, rfl, rfl⟩
        | some u =>
          cases hu : u.truthy with
          | false =>
            rw [submitResume_no_redirect label failed retry t resData success message data u
              hres hs hd hu st]
            exact ⟨rfl, rfl, rfl⟩
          | true =>
            rw [submitResume_redirect label failed retry t resData success message data u
              hres hs hd hu st]
            exact ⟨rfl, rfl, rfl⟩

theorem fetchConsentInfoResume_outcome (t : String → String) (ht : t "获取授权信息失败" ≠ "")
    (outcome : ApiOutcome) (st : State) :
    (fetchConsentInfoResume t outcome st).loading = false ∧
    ((fetchConsentInfoResume t outcome st).error.truthy = true ∨
      outcome.succeeded = true) := by
  have hfb : (JSValue.str (t "获取授权信息失败")).truthy = true := truthy_str_of_ne_empty _ ht
  refine ⟨rfl, ?_⟩
  cases outcome with
  | rejected => exact Or.inl hfb
  | resolved resData =>
    cases hres : destructure resData with
    | none =>
      left
      simp only [fetchConsentInfoResume, hres]
      exact hfb
    | some triple =>
      obtain ⟨success, message, data⟩ := triple
      cases hs : success.truthy with
      | false =>
        left
        rw [fetchConsentInfoResume_failure t resData success message data hres hs st]
        show (message.or (JSValue.str (t "获取授权信息失败"))).truthy = true
        cases hm : message.truthy with
        | true => rw [or_of_truthy _ _ hm]; exact hm
        | false => rw [or_of_falsy _ _ hm]; exact hfb
      | true =>
        cases hd : data.prop "redirect_to" with
        | none =>
          left
          simp only [fetchConsentInfoResume, hres, hs, hd]
          exact hfb
        | some u =>
          right
          simp [ApiOutcome.succeeded, hres, hs, hd]

theorem Page.inv_mounted (t : String → String) (ht : t "缺少 consent_challenge 参数" ≠ "")
    (challenge : Option String) : Page.Inv (Page.mounted t challenge) := by
  have hm : (JSValue.str (t "缺少 consent_challenge 参数")).truthy = true :=
    truthy_str_of_ne_empty _ ht
  cases challenge with
  | none => exact ⟨fun h => Bool.noConfusion h, Or.inr (Or.inl hm)⟩
  | some c =>
    by_cases hc : c = ""
    · subst hc
      exact ⟨fun h => Bool.noConfusion h, Or.inr (Or.inl hm)⟩
    · have e : mountEffect t (some c) State.initial
          = (apiGet ("/oauth/consent?consent_challenge=" ++ c) State.initial, true) := by
        simp only [mountEffect, if_neg hc]
      refine ⟨fun _ => ⟨?_, rfl⟩, Or.inl ?_⟩
      · show (mountEffect t (some c) State.initial).1.loading = true
        rw [e]; rfl
      · show (mountEffect t (some c) State.initial).1.loading = true
        rw [e]; rfl

theorem Page.inv_of_fields (pg pg' : Page) (h : Page.Inv pg)
    (hp : pg'.fetchPending = pg.fetchPending) (hf : pg'.fetched = pg.fetched)
    (hl : pg'.state.loading = pg.state.loading) (he : pg'.state.error = pg.state.error) :
    Page.Inv pg' := by
  unfold Page.Inv
  rw [hp, hf, hl, he]
  exact h

theorem Page.inv_step (t : String → String) (ht : t "获取授权信息失败" ≠ "")
    (isEnglish : Bool) (challenge : Option String) (pg : Page) (e : PageEvent)
    (h : Page.Inv pg) : Page.Inv (Page.step t isEnglish challenge pg e) := by
  cases e with
  | fetchSettles outcome =>
    by_cases hp : pg.fetchPending = true
    · simp only [Page.step, hp, if_true]
      have ho := fetchConsentInfoResume_outcome t ht outcome pg.state
      refine ⟨fun hfalse => Bool.noConfusion hfalse, ?_⟩
      rcases ho.2 with herr | hok
      · exact Or.inr (Or.inl herr)
      · exact Or.inr (Or.inr ⟨outcome, rfl, hok⟩)
    · simp only [Page.step, hp]
      exact h
  | pressApprove =>
    by_cases hf : (render t isEnglish pg.state).isForm = true
    · simp only [Page.step, hf, if_true]
      exact Page.inv_of_fields pg _ h rfl rfl rfl rfl
    · simp only [Page.step, hf]
      exact h
  | pressReject =>
    by_cases hf : (render t isEnglish pg.state).isForm = true
    · simp only [Page.step, hf, if_true]
      exact Page.inv_of_fields pg _ h rfl rfl rfl rfl
    · simp only [Page.step, hf]
      exact h
  | approveSettles outcome =>
    by_cases hn : 0 < pg.approving
    · simp only [Page.step, hn, if_true]
      have hfields := submitResume_fields "Consent approval failed:" "授权失败"
        "授权失败，请重试" t outcome pg.state
      exact Page.inv_of_fields pg _ h rfl rfl hfields.1 hfields.2.1
    · simp only [Page.step, hn]
      exact h
  | rejectSettles outcome =>
    by_cases hn : 0 < pg.rejecting
    · simp only [Page.step, hn, if_true]
      have hfields := submitResume_fields "Consent rejection failed:" "操作失败"
        "操作失败，请重试" t outcome pg.state
      exact Page.inv_of_fields pg _ h rfl rfl hfields.1 hfields.2.1
    · simp only [Page.step, hn]
      exact h

theorem Page.inv_foldl (t : String → String) (ht : t "获取授权信息失败" ≠ "")
    (isEnglish : Bool) (challenge : Option String) (events : List PageEvent) (pg : Page)
    (h : Page.Inv pg) : Page.Inv (events.foldl (Page.step t isEnglish challenge) pg) := by
  induction events generalizing pg with
  | nil => exact h
  | cons e rest ih =>
    exact ih _ (Page.inv_step t ht isEnglish challenge pg e h)

end OAuthConsent

namespace OAuthConsent

open OAuthTest

theorem render_isForm_fields (t : String → String) (isEnglish : Bool) (st : State)
    (h : (render t isEnglish st).isForm = true) :
    st.loading = false ∧ st.error.truthy = false := by
  unfold render at h
  cases hl : st.loading with
  | true => simp [hl, View.isForm] at h
  | false =>
    cases he : st.error.truthy with
    | true => simp [hl, he, View.isForm] at h
    | false => exact ⟨rfl, rfl⟩

theorem render_loading_or_error (t : String → String) (isEnglish : Bool) (st : State)
    (h : st.loading = true ∨ st.error.truthy = true) :
    render t isEnglish st = View.loading ∨ (render t isEnglish st).isError = true := by
  unfold render
  cases hl : st.loading with
  | true => left; simp
  | false =>
    rcases h with h | h
    · rw [hl] at h; exact Bool.noConfusion h
    · right; simp [h, View.isError]

/-- C20. Reachable-state invariant of the consent page, for a translation function
whose texts for the missing challenge and for the fetch failure are non-empty. The
initial state renders the spinner. After the mount effect and any sequence of events
(the fetch settling in any way, the buttons of the form being pressed, submissions
settling in any way): if `loading` is false and `error` is falsy, in particular if the
consent form is the rendered view, then the fetch has settled as a success; and as
long as no fetch has settled as a success, the view is the spinner or the error
card. -/
theorem form_only_after_successful_fetch (t : String → String)
    (hmissing : t "缺少 consent_challenge 参数" ≠ "") (hgeneric : t "获取授权信息失败" ≠ "")
    (isEnglish : Bool) (challenge : Option String) (events : List PageEvent) :
    render t isEnglish State.initial = View.loading ∧
    ((Page.run t isEnglish challenge events).state.loading = false →
      (Page.run t isEnglish challenge events).state.error.truthy = false →
      ∃ outcome, (Page.run t isEnglish challenge events).fetched = some outcome ∧
        outcome.succeeded = true) ∧
    ((render t isEnglish (Page.run t isEnglish challenge events).state).isForm = true →
      ∃ outcome, (Page.run t isEnglish challenge events).fetched = some outcome ∧
        outcome.succeeded = true) ∧
    ((∀ outcome, (Page.run t isEnglish challenge events).fetched = some outcome →
        outcome.succeeded = false) →
      render t isEnglish (Page.run t isEnglish challenge events).state = View.loading ∨
      (render t isEnglish (Page.run t isEnglish challenge events).state).isError = true) := by
  have hinv : Page.Inv (Page.run t isEnglish challenge events) :=
    Page.inv_foldl t hgeneric isEnglish challenge events _
      (Page.inv_mounted t hmissing challenge)
  have hmain : (Page.run t isEnglish challenge events).state.loading = false →
      (Page.run t isEnglish challenge events).state.error.truthy = false →
      ∃ outcome, (Page.run t isEnglish challenge events).fetched = some outcome ∧
        outcome.succeeded = true := by
    intro hl he
    rcases hinv.2 with h | h | h
    · rw [hl] at h; exact Bool.noConfusion h
    · rw [he] at h; exact Bool.noConfusion h
    · exact h
  refine ⟨rfl, hmain, ?_, ?_⟩
  · intro hform
    have hf := render_isForm_fields t isEnglish _ hform
    exact hmain hf.1 hf.2
  · intro hnone
    apply render_loading_or_error
    rcases hinv.2 with h | h | ⟨outcome, ho, hs⟩
    · exact Or.inl h
    · exact Or.inr h
    · rw [hnone outcome ho] at hs
      exact Bool.noConfusion hs

/-- Witness of C20: the fetch answers `consentPending` and the user presses approve;
the form is rendered and the fetch has settled as a success. -/
theorem form_only_after_successful_fetch_witness :
    (render id false
        (Page.run id false (some "abc")
          [PageEvent.fetchSettles (ApiOutcome.resolved consentPending),
           PageEvent.pressApprove]).state).isForm = true ∧
    ∃ outcome,
      (Page.run id false (some "abc")
        [PageEvent.fetchSettles (ApiOutcome.resolved consentPending),
         PageEvent.pressApprove]).fetched = some outcome ∧
      outcome.succeeded = true :=
  ⟨rfl,
   (form_only_after_successful_fetch id (by decide) (by decide) false (some "abc")
      [PageEvent.fetchSettles (ApiOutcome.resolved consentPending),
       PageEvent.pressApprove]).2.2.1 rfl⟩

end OAuthConsent

/-! ## The loading flag under overlapping calls -/

namespace OAuthTest

theorem step_start_dispatched (panel : Panel) (bearerToken k : String)
    (htoken : bearerToken ≠ "") (config : RequestConfig) (now : Int) (s : Session) :
    step panel s (Event.start bearerToken k config now)
      = { store := callTransport
            { config := config, authorization := panel.authorization bearerToken }
            (storeLoading k true s.store),
          pending := s.pending ++ [{ key := k, startTime := now }] } := by
  cases panel with
  | provider => rfl
  | api =>
    simp only [step, Panel.makeRequestBegin, OAuthAPITest.makeRequestBegin, if_neg htoken,
      Panel.authorization]
    rfl

/-- C21. The in-flight flag is one boolean per key, not a count. On either panel (the
API panel with a non-empty bearer token), for every key `k`: start two calls of
`makeRequest(k, config)`, the second before the first completes; both are then
suspended and `loading[k]` is true. Let the first one settle, in any way: now
`loading[k]` is false although the second call is still suspended. So it is not the
case that `loading[k] = false` guarantees that no call for `k` is outstanding. -/
theorem loading_flag_is_not_a_count (panel : Panel) (bearerToken k : String)
    (htoken : bearerToken ≠ "") (config : RequestConfig) (t1 t2 now : Int)
    (outcome : Outcome) :
    ((run panel [Event.start bearerToken k config t1, Event.start bearerToken k config t2]
        Session.initial).pending
        = [{ key := k, startTime := t1 }, { key := k, startTime := t2 }] ∧
      (run panel [Event.start bearerToken k config t1, Event.start bearerToken k config t2]
        Session.initial).store.loading.read k = some true) ∧
    ((run panel (overlapped bearerToken k config t1 t2 outcome now)
        Session.initial).store.loading.read k = some false ∧
      (run panel (overlapped bearerToken k config t1 t2 outcome now)
        Session.initial).pending = [{ key := k, startTime := t2 }]) ∧
    ¬ (∀ events : List Event,
        (run panel events Session.initial).store.loading.read k = some false →
        ∀ p ∈ (run panel events Session.initial).pending, p.key ≠ k) := by
  have h2 : run panel
      [Event.start bearerToken k config t1, Event.start bearerToken k config t2]
      Session.initial
      = { store := callTransport
            { config := config, authorization := panel.authorization bearerToken }
            (storeLoading k true
              (callTransport
                { config := config, authorization := panel.authorization bearerToken }
                (storeLoading k true Store.initial))),
          pending := [{ key := k, startTime := t1 }, { key := k, startTime := t2 }] } := by
    rw [run_cons, run_cons, step_start_dispatched panel bearerToken k htoken config t1,
      step_start_dispatched panel bearerToken k htoken config t2]
    rfl
  have h3 : run panel (overlapped bearerToken k config t1 t2 outcome now) Session.initial
      = { store := makeRequestResume { key := k, startTime := t1 } outcome now
            (run panel
              [Event.start bearerToken k config t1, Event.start bearerToken k config t2]
              Session.initial).store,
          pending := [{ key := k, startTime := t2 }] } := by
    have hsplit : overlapped bearerToken k config t1 t2 outcome now
        = [Event.start bearerToken k config t1, Event.start bearerToken k config t2]
          ++ [Event.settle { key := k, startTime := t1 } outcome now] := rfl
    have hmem : ({ key := k, startTime := t1 } : Pending) ∈ (run panel
        [Event.start bearerToken k config t1, Event.start bearerToken k config t2]
        Session.initial).pending := by
      rw [h2]
      exact List.mem_cons_self _ _
    rw [hsplit, run_append, run_cons, step_settle_of_mem panel _ _ outcome now hmem]
    show Session.mk _ _ = _
    rw [h2]
    simp
  have hfalse : (run panel (overlapped bearerToken k config t1 t2 outcome now)
      Session.initial).store.loading.read k = some false := by
    rw [h3, makeRequestResume_eq]
    exact JSObj.read_assign_self _ k false
  have hpending : (run panel (overlapped bearerToken k config t1 t2 outcome now)
      Session.initial).pending = [{ key := k, startTime := t2 }] := by
    rw [h3]
  refine ⟨⟨?_, ?_⟩, ⟨hfalse, hpending⟩, ?_⟩
  · rw [h2]
  · rw [h2]
    exact JSObj.read_assign_self _ k true
  · intro hall
    have hp := hall (overlapped bearerToken k config t1 t2 outcome now) hfalse
      { key := k, startTime := t2 } (by rw [hpending]; exact List.mem_cons_self _ _)
    exact hp rfl

/-- Witness of C21: two calls under `getLogout` on the provider panel, started at
clock readings 0 and 1; the first settles with status 200 at reading 5, and
`loading.getLogout` is false while the second call is still suspended. -/
theorem loading_flag_is_not_a_count_witness :
    (run Panel.provider
        (overlapped "tok" "getLogout" { method := "GET", url := "/oauth/logout" } 0 1
          (Outcome.resolved { status := 200, data := JSValue.num 2 }) 5)
        Session.initial).store.loading.read "getLogout" = some false ∧
    (run Panel.provider
        (overlapped "tok" "getLogout" { method := "GET", url := "/oauth/logout" } 0 1
          (Outcome.resolved { status := 200, data := JSValue.num 2 }) 5)
        Session.initial).pending = [{ key := "getLogout", startTime := 1 }] :=
  (loading_flag_is_not_a_count Panel.provider "tok" "getLogout" (by decide)
    { method := "GET", url := "/oauth/logout" } 0 1 5
    (Outcome.resolved { status := 200, data := JSValue.num 2 })).2.1

end OAuthTest
